import Mathlib

set_option maxHeartbeats 1000000

/-!
Verification of the OSPF device-manager automation engine and topology
transformer.  Python source modules (`command_executor.py`,
`connection_manager.py`, `topology_builder.py`, `interface_transformer.py`)
are shallowly embedded: Python strings become `List Char`, dicts become
association lists that preserve insertion order, machine floats become
rationals rounded to the IEEE-754 binary64 grid, and side effects become
explicit state passing over an oracle environment.
-/

namespace Spec2Proof

/-- Python strings are modelled as lists of characters. -/
abbrev PyStr := List Char

/-- View a Lean string literal as a `PyStr`. -/
def lit (s : String) : PyStr := s.toList

/-- Model of Python `str.startswith`. -/
def pyStartsWith (s p : PyStr) : Bool := p.isPrefixOf s

/-- Model of Python `str.lower` (ASCII case mapping, which covers every
string the embedded code manipulates). -/
def pyLower (s : PyStr) : PyStr := s.map Char.toLower

/-- Model of Python `str.upper` (ASCII case mapping). -/
def pyUpper (s : PyStr) : PyStr := s.map Char.toUpper

/-- Characters Python `str.strip()` and regex `\s` treat as whitespace
(ASCII subset). -/
def pyIsSpace (c : Char) : Bool :=
  c = ' ' || c = '\t' || c = '\n' || c = '\r' || c = '\x0b' || c = '\x0c'

/-- Model of Python `str.strip()`. -/
def pyStrip (s : PyStr) : PyStr :=
  ((s.dropWhile (pyIsSpace ·)).reverse.dropWhile (pyIsSpace ·)).reverse

/-! ## Command timeout policy (`command_executor.py`, lines 46-63) -/

/-- The `COMMAND_TIMEOUTS` dict of `command_executor.py`, in insertion order. -/
def COMMAND_TIMEOUTS : List (PyStr × Nat) :=
  [ (lit "show running-config", 180)
  , (lit "show ospf database", 120)
  , (lit "show interface", 120)
  , (lit "show cdp neighbor detail", 90)
  , (lit "terminal length 0", 10) ]

/-- The `DEFAULT_TIMEOUT` constant of `command_executor.py`. -/
def DEFAULT_TIMEOUT : Nat := 60

/-- The `for pattern, timeout in COMMAND_TIMEOUTS.items()` loop body of
`get_command_timeout`: first prefix match wins, else the default. -/
def lookupTimeout : List (PyStr × Nat) → PyStr → Nat
  | [], _ => DEFAULT_TIMEOUT
  | (p, t) :: rest, c => if pyStartsWith c (pyLower p) then t else lookupTimeout rest c

/-- Embedding of `get_command_timeout` (`command_executor.py` lines 57-63):
lowercase and strip the command, then scan the timeout table. -/
def get_command_timeout (command : PyStr) : Nat :=
  lookupTimeout COMMAND_TIMEOUTS (pyStrip (pyLower command))

/-- C9: for every command string the timeout lookup returns 180 s when the
lowercased, stripped command starts with "show running-config", 120 s for
"show ospf database", 120 s for "show interface", 90 s for
"show cdp neighbor detail", 10 s for "terminal length 0", and 60 s
otherwise. -/
theorem timeout_policy (command : PyStr) :
    get_command_timeout command =
      (if pyStartsWith (pyStrip (pyLower command)) (lit "show running-config") then 180
       else if pyStartsWith (pyStrip (pyLower command)) (lit "show ospf database") then 120
       else if pyStartsWith (pyStrip (pyLower command)) (lit "show interface") then 120
       else if pyStartsWith (pyStrip (pyLower command)) (lit "show cdp neighbor detail") then 90
       else if pyStartsWith (pyStrip (pyLower command)) (lit "terminal length 0") then 10
       else 60) := by
  have e1 : pyLower (lit "show running-config") = lit "show running-config" := by decide
  have e2 : pyLower (lit "show ospf database") = lit "show ospf database" := by decide
  have e3 : pyLower (lit "show interface") = lit "show interface" := by decide
  have e4 : pyLower (lit "show cdp neighbor detail") = lit "show cdp neighbor detail" := by
    decide
  have e5 : pyLower (lit "terminal length 0") = lit "terminal length 0" := by decide
  simp only [get_command_timeout, COMMAND_TIMEOUTS, lookupTimeout, e1, e2, e3, e4, e5,
    DEFAULT_TIMEOUT]

/-- Witness for C9: a concrete command hits the "show ospf database" row. -/
theorem timeout_policy_witness :
    get_command_timeout (lit "  SHOW OSPF DATABASE router  ") = 120 := by
  rw [timeout_policy (lit "  SHOW OSPF DATABASE router  ")]
  decide

/-! ## Device connection credentials (`connection_manager.py`, lines 274-357) -/

/-- Model of Python `in` on strings (substring test). -/
def pyContains (s sub : PyStr) : Bool :=
  (List.range (s.length + 1)).any (fun i => sub.isPrefixOf (s.drop i))

/-- The jumphost (bastion) configuration record. -/
structure JumphostConfig where
  enabled : Bool
  host : PyStr
  port : Nat
  username : PyStr
  password : PyStr
deriving DecidableEq

/-- A device inventory record as `SSHConnectionManager.connect` reads it.
Optional fields mirror the `device_info.get(...)` accesses of the source. -/
structure DeviceInfoRec where
  deviceName : PyStr
  ipAddress : PyStr
  username : Option PyStr
  password : Option PyStr
  port : Option Nat
  software : Option PyStr
  platform : Option PyStr
deriving DecidableEq

/-- Process-wide router credentials from `.env.local`
(`get_router_credentials`). -/
structure RouterCreds where
  username : PyStr
  password : PyStr
deriving DecidableEq

/-- The Netmiko session parameters built by `connect` (the pure fields). -/
structure NetmikoParams where
  device_type : PyStr
  host : PyStr
  username : PyStr
  password : PyStr
  port : Nat
  timeout : Nat
  conn_timeout : Nat
  auth_timeout : Nat
deriving DecidableEq

/-- Embedding of the dialect-selection and credential logic of
`SSHConnectionManager.connect` (`connection_manager.py` lines 312-357):
the Netmiko `device_params` built for a device, as a function of the
device record, the loaded jumphost config and the `.env.local` fallback
credentials. -/
def build_device_params (device_info : DeviceInfoRec) (jumphost_config : JumphostConfig)
    (router_creds : RouterCreds) (timeout : Nat) : NetmikoParams :=
  let software := pyUpper (device_info.software.getD [])
  let platform := pyUpper (device_info.platform.getD [])
  let netmiko_device_type :=
    if pyContains software (lit "XR") || pyContains platform (lit "ASR9") then
      lit "cisco_xr"
    else if pyContains software (lit "NX") || pyContains platform (lit "NEXUS") then
      lit "cisco_nxos"
    else if pyContains software (lit "XE") then lit "cisco_ios"
    else lit "cisco_ios"
  let device_username :=
    if pyStrip (device_info.username.getD []) = [] then lit "cisco"
    else pyStrip (device_info.username.getD [])
  let jp := pyStrip jumphost_config.password
  let device_password := if jp = [] then router_creds.password else jp
  { device_type := netmiko_device_type
    host := device_info.ipAddress
    username := device_username
    password := device_password
    port := device_info.port.getD 22
    timeout := timeout
    conn_timeout := timeout + 5
    auth_timeout := timeout + 5 }

/-- A concrete device record for the C1 counterexample. -/
def cexDevice : DeviceInfoRec :=
  { deviceName := lit "usa-r1"
    ipAddress := lit "10.0.0.1"
    username := some (lit "deviceuser")
    password := some (lit "devicepass")
    port := some 22
    software := some (lit "IOS-XR 7.3")
    platform := some (lit "ASR9K") }

/-- A concrete enabled jumphost config for the C1 counterexample. -/
def cexJumphost : JumphostConfig :=
  { enabled := true
    host := lit "bastion.example"
    port := 22
    username := lit "bastionuser"
    password := lit "bastionpass" }

/-- Counterexample to C1: with the bastion enabled, the username sent to the
device is the device record's own username, not the bastion's, so the device
record's credential fields are not ignored. -/
theorem bastion_credentials_cex :
    cexJumphost.enabled = true ∧
      (build_device_params cexDevice cexJumphost
          ⟨lit "envuser", lit "envpass"⟩ 10).username ≠ cexJumphost.username ∧
      (build_device_params cexDevice cexJumphost
          ⟨lit "envuser", lit "envpass"⟩ 10).username = lit "deviceuser" := by
  refine ⟨rfl, ?_, ?_⟩ <;> decide

/-- C1 (amended): for every connection attempt with the bastion enabled, the
password sent to the device is the bastion config's stripped password when
non-empty (otherwise the `.env.local` fallback password), while the username
is the device record's own stripped username when non-empty (otherwise the
literal "cisco"); the bastion's username and the device record's password are
ignored. -/
theorem bastion_credentials (d : DeviceInfoRec) (j : JumphostConfig) (rc : RouterCreds)
    (t : Nat) (henabled : j.enabled = true) :
    (build_device_params d j rc t).password =
        (if pyStrip j.password = [] then rc.password else pyStrip j.password) ∧
      (build_device_params d j rc t).username =
        (if pyStrip (d.username.getD []) = [] then lit "cisco"
         else pyStrip (d.username.getD [])) ∧
      (∀ pw un, build_device_params { d with password := pw }
          { j with username := un } rc t = build_device_params d j rc t) := by
  refine ⟨rfl, rfl, fun pw un => rfl⟩

/-- Witness for C1 (amended) at a concrete input: the bastion password wins
and the device username survives. -/
theorem bastion_credentials_witness :
    (build_device_params cexDevice cexJumphost ⟨lit "envuser", lit "envpass"⟩ 10).password =
        lit "bastionpass" ∧
      (build_device_params cexDevice cexJumphost
          ⟨lit "envuser", lit "envpass"⟩ 10).username = lit "deviceuser" := by
  have h := bastion_credentials cexDevice cexJumphost ⟨lit "envuser", lit "envpass"⟩ 10 rfl
  refine ⟨h.1.trans (by decide), h.2.1.trans (by decide)⟩

/-! ## Interface-name normalization (`topology_builder.py` lines 390-439 and
`interface_transformer.py` lines 299-353) -/

/-- First index at which `pat` occurs in the string, scanning left to right
(the search underlying Python `str.replace` and `re.search`). -/
def findSubstrIdxAux (pat : PyStr) : PyStr → Nat → Option Nat
  | [], i => if pat.isPrefixOf [] then some i else none
  | c :: r, i => if pat.isPrefixOf (c :: r) then some i else findSubstrIdxAux pat r (i + 1)

/-- First occurrence index of `pat` in `s`, if any. -/
def findSubstrIdx (s pat : PyStr) : Option Nat := findSubstrIdxAux pat s 0

/-- Model of Python `str.replace(pat, rep, 1)`: replace the first occurrence. -/
def pyReplaceFirst (s pat rep : PyStr) : PyStr :=
  match findSubstrIdx s pat with
  | none => s
  | some i => s.take i ++ rep ++ s.drop (i + pat.length)

theorem findSubstrIdx_of_prefix {s pat : PyStr} (h : pat.isPrefixOf s = true) :
    findSubstrIdx s pat = some 0 := by
  cases s with
  | nil => simp [findSubstrIdx, findSubstrIdxAux, h]
  | cons c r => simp [findSubstrIdx, findSubstrIdxAux, h]

theorem pyReplaceFirst_of_prefix {s pat : PyStr} (rep : PyStr)
    (h : pat.isPrefixOf s = true) :
    pyReplaceFirst s pat rep = rep ++ s.drop pat.length := by
  simp [pyReplaceFirst, findSubstrIdx_of_prefix h]

theorem isPrefixOf_append_self (p s : PyStr) : p.isPrefixOf (p ++ s) = true := by
  induction p with
  | nil => simp [List.isPrefixOf]
  | cons c r ih => simp [List.isPrefixOf, ih]

namespace TopologyBuilder

/-- The full-name passthrough slice `IOSXR_INTERFACE_MAP[:12]` of
`TopologyBuilder._normalize_interface_name`. -/
def IOSXR_FULL_NAMES : List (PyStr × PyStr) :=
  [ (lit "HundredGigE", lit "HundredGigE")
  , (lit "FortyGigE", lit "FortyGigE")
  , (lit "TwentyFiveGigE", lit "TwentyFiveGigE")
  , (lit "TenGigE", lit "TenGigE")
  , (lit "GigabitEthernet", lit "GigabitEthernet")
  , (lit "Bundle-Ether", lit "Bundle-Ether")
  , (lit "Loopback", lit "Loopback")
  , (lit "MgmtEth", lit "MgmtEth")
  , (lit "BVI", lit "BVI")
  , (lit "tunnel-ip", lit "tunnel-ip")
  , (lit "tunnel-te", lit "tunnel-te")
  , (lit "NVE", lit "NVE") ]

/-- The abbreviation slice `IOSXR_INTERFACE_MAP[12:]`. -/
def IOSXR_ABBREVIATIONS : List (PyStr × PyStr) :=
  [ (lit "Hu", lit "HundredGigE")
  , (lit "Fo", lit "FortyGigE")
  , (lit "Tf", lit "TwentyFiveGigE")
  , (lit "Te", lit "TenGigE")
  , (lit "Gi", lit "GigabitEthernet")
  , (lit "BE", lit "Bundle-Ether")
  , (lit "Lo", lit "Loopback")
  , (lit "Mg", lit "MgmtEth") ]

/-- The complete `IOSXR_INTERFACE_MAP` table, in source order. -/
def IOSXR_INTERFACE_MAP : List (PyStr × PyStr) :=
  IOSXR_FULL_NAMES ++ IOSXR_ABBREVIATIONS

/-- Embedding of `TopologyBuilder._normalize_interface_name`: pass full
IOS-XR names through unchanged, expand a leading abbreviation via
`str.replace(abbrev, full, 1)`, otherwise return the input as is. -/
def normalize_interface_name (interface : PyStr) : PyStr :=
  match IOSXR_FULL_NAMES.find? (fun p => pyStartsWith interface p.1) with
  | some _ => interface
  | none =>
    match IOSXR_ABBREVIATIONS.find? (fun p => pyStartsWith interface p.1) with
    | some pr => pyReplaceFirst interface pr.1 pr.2
    | none => interface

/-- Every expansion that the abbreviation table can produce starts with one
of the 12 full names, so the second pass returns it unchanged. -/
theorem full_match_of_abbrev {pr : PyStr × PyStr}
    (hmem : pr ∈ IOSXR_ABBREVIATIONS) (rest : PyStr) :
    (IOSXR_FULL_NAMES.find?
        (fun p => pyStartsWith (pr.2 ++ rest) p.1)).isSome = true := by
  apply List.find?_isSome.mpr
  simp only [IOSXR_ABBREVIATIONS, List.mem_cons, List.not_mem_nil, or_false] at hmem
  rcases hmem with h | h | h | h | h | h | h | h
  · exact ⟨(lit "HundredGigE", lit "HundredGigE"), by decide,
      by simp [h, pyStartsWith, isPrefixOf_append_self]⟩
  · exact ⟨(lit "FortyGigE", lit "FortyGigE"), by decide,
      by simp [h, pyStartsWith, isPrefixOf_append_self]⟩
  · exact ⟨(lit "TwentyFiveGigE", lit "TwentyFiveGigE"), by decide,
      by simp [h, pyStartsWith, isPrefixOf_append_self]⟩
  · exact ⟨(lit "TenGigE", lit "TenGigE"), by decide,
      by simp [h, pyStartsWith, isPrefixOf_append_self]⟩
  · exact ⟨(lit "GigabitEthernet", lit "GigabitEthernet"), by decide,
      by simp [h, pyStartsWith, isPrefixOf_append_self]⟩
  · exact ⟨(lit "Bundle-Ether", lit "Bundle-Ether"), by decide,
      by simp [h, pyStartsWith, isPrefixOf_append_self]⟩
  · exact ⟨(lit "Loopback", lit "Loopback"), by decide,
      by simp [h, pyStartsWith, isPrefixOf_append_self]⟩
  · exact ⟨(lit "MgmtEth", lit "MgmtEth"), by decide,
      by simp [h, pyStartsWith, isPrefixOf_append_self]⟩

end TopologyBuilder

namespace InterfaceTransformer

/-- The `INTERFACE_NORMALIZATION_MAP` dict of `interface_transformer.py`, in
insertion order (full form, uppercased, to abbreviated form). -/
def INTERFACE_NORMALIZATION_MAP : List (PyStr × PyStr) :=
  [ (lit "GIGABITETHERNET", lit "Gi")
  , (lit "TENGIGABITETHERNET", lit "Te")
  , (lit "TENGIGE", lit "Te")
  , (lit "HUNDREDGIGE", lit "Hu")
  , (lit "FORTYGIGE", lit "Fo")
  , (lit "TWENTYFIVEGIGE", lit "Tf")
  , (lit "FASTETHERNET", lit "Fa")
  , (lit "LOOPBACK", lit "Lo")
  , (lit "MGMTETH", lit "Mg")
  , (lit "BUNDLE-ETHER", lit "BE")
  , (lit "NULL", lit "Nu") ]

/-- Model of `interface.replace('\n','').replace('\r','').replace('\t','')`. -/
def removeCtl (s : PyStr) : PyStr :=
  s.filter (fun c => !(c = '\n' || c = '\r' || c = '\t'))

/-- Model of `re.sub(pat + '.*', '', s, flags=re.IGNORECASE)` on a string
without newlines: truncate at the first case-insensitive occurrence. -/
def truncAtCI (s pat : PyStr) : PyStr :=
  match findSubstrIdx (pyUpper s) (pyUpper pat) with
  | none => s
  | some i => s.take i

/-- Model of `re.sub(r'\s+', '', s)`. -/
def removeWs (s : PyStr) : PyStr := s.filter (fun c => !(pyIsSpace c))

/-- The cleaning prefix of `InterfaceTransformer._normalize_interface_name`:
drop control characters, truncate CDP garbage, remove whitespace, strip. -/
def cleanName (s : PyStr) : PyStr :=
  pyStrip (removeWs (truncAtCI (truncAtCI (removeCtl s) (lit "Holdtime")) (lit "Capability")))

/-- Embedding of `InterfaceTransformer._normalize_interface_name`: clean the
name, split off a subinterface suffix at the first dot, abbreviate a full
form found case-insensitively at the start of the parent. -/
def normalize_interface_name (interface : PyStr) : PyStr :=
  if interface = [] then interface
  else
    let i1 := cleanName interface
    if i1 = [] then []
    else
      let parent := i1.takeWhile (fun c => c ≠ '.')
      let suffix := i1.dropWhile (fun c => c ≠ '.')
      match INTERFACE_NORMALIZATION_MAP.find? (fun p => pyStartsWith (pyUpper parent) p.1) with
      | some pr => pr.2 ++ parent.drop pr.1.length ++ suffix
      | none => parent ++ suffix

end InterfaceTransformer

/-- Counterexample to C8: the interface transformer's normalization is not
idempotent.  At input "NULLLL0" one pass gives "NuLL0" (whose uppercase again
starts with "NULL"), and a second pass gives "Nu0". -/
theorem normalize_idempotent_cex :
    InterfaceTransformer.normalize_interface_name
        (InterfaceTransformer.normalize_interface_name (lit "NULLLL0")) ≠
      InterfaceTransformer.normalize_interface_name (lit "NULLLL0") := by
  decide

/-- C8 (amended): the topology builder's interface normalization is
idempotent for every input string, while the interface transformer's
normalization is not idempotent in general (its output can again begin,
case-insensitively, with a full-form prefix and be re-abbreviated). -/
theorem normalize_idempotent :
    (∀ x : PyStr,
        TopologyBuilder.normalize_interface_name
            (TopologyBuilder.normalize_interface_name x) =
          TopologyBuilder.normalize_interface_name x) ∧
      ¬ (∀ x : PyStr,
          InterfaceTransformer.normalize_interface_name
              (InterfaceTransformer.normalize_interface_name x) =
            InterfaceTransformer.normalize_interface_name x) := by
  constructor
  · intro x
    unfold TopologyBuilder.normalize_interface_name
    cases h1 : TopologyBuilder.IOSXR_FULL_NAMES.find?
        (fun p => pyStartsWith x p.1) with
    | some p => simp [TopologyBuilder.normalize_interface_name, h1]
    | none =>
      cases h2 : TopologyBuilder.IOSXR_ABBREVIATIONS.find?
          (fun p => pyStartsWith x p.1) with
      | none => simp [TopologyBuilder.normalize_interface_name, h1, h2]
      | some pr =>
        have hmem := List.mem_of_find?_eq_some h2
        have hpref : pyStartsWith x pr.1 = true := by
          have := List.find?_some h2
          simpa using this
        have hrepl : pyReplaceFirst x pr.1 pr.2 = pr.2 ++ x.drop pr.1.length :=
          pyReplaceFirst_of_prefix pr.2 hpref
        have hfull := TopologyBuilder.full_match_of_abbrev hmem (x.drop pr.1.length)
        obtain ⟨q, hq⟩ := Option.isSome_iff_exists.mp hfull
        simp only [hrepl]
        rw [hq]
  · intro h
    have := h (lit "NULLLL0")
    revert this
    decide

/-! ## Python dict and string helpers shared by the embeddings -/

/-- Association-list lookup: model of Python `d[k]` / `k in d` on dicts. -/
def alookup {α β : Type} [DecidableEq α] : List (α × β) → α → Option β
  | [], _ => none
  | (k0, v0) :: rest, k => if k0 = k then some v0 else alookup rest k

/-- Association-list assignment `d[k] = v`, preserving insertion order. -/
def asetKV {α β : Type} [DecidableEq α] : List (α × β) → α → β → List (α × β)
  | [], k, v => [(k, v)]
  | (k0, v0) :: rest, k, v =>
    if k0 = k then (k0, v) :: rest else (k0, v0) :: asetKV rest k v

/-- In-place update of the value at a key, identity elsewhere. -/
def amodify {α β : Type} [DecidableEq α] (m : List (α × β)) (k : α) (f : β → β) :
    List (α × β) :=
  m.map (fun p => if p.1 = k then (p.1, f p.2) else p)

/-- Model of Python `str.split()` (split on whitespace runs, dropping
empty fields). -/
def pySplitWsAux : PyStr → PyStr → List PyStr
  | [], acc => if acc = [] then [] else [acc.reverse]
  | c :: r, acc =>
    if pyIsSpace c then
      if acc = [] then pySplitWsAux r [] else acc.reverse :: pySplitWsAux r []
    else pySplitWsAux r (c :: acc)

def pySplitWs (s : PyStr) : List PyStr := pySplitWsAux s []

/-- Model of `str.splitlines()` / `str.split('\n')` on newline-separated
command output. -/
def pySplitLinesAux : PyStr → PyStr → List PyStr
  | [], acc => [acc.reverse]
  | c :: r, acc =>
    if c = '\n' then acc.reverse :: pySplitLinesAux r [] else pySplitLinesAux r (c :: acc)

def pySplitLines (s : PyStr) : List PyStr := pySplitLinesAux s []

/-- Model of Python `str.replace(pat, rep)` (all non-overlapping,
leftmost-first occurrences); the fuel argument only serves termination. -/
def pyReplaceAllAux (pat rep : PyStr) : Nat → PyStr → PyStr
  | 0, s => s
  | fuel + 1, s =>
    match findSubstrIdx s pat with
    | none => s
    | some i => s.take i ++ rep ++ pyReplaceAllAux pat rep fuel (s.drop (i + pat.length))

def pyReplaceAll (s pat rep : PyStr) : PyStr :=
  if pat = [] then s else pyReplaceAllAux pat rep (s.length + 1) s

/-- Decimal digits of a natural number, as Python `str(n)` / f-strings
render it. -/
def natDigits (n : Nat) : PyStr := Nat.toDigits 10 n

/-- Numeric value of a run of decimal digits, as Python `int(...)` reads a
`\d+` regex capture. -/
def digitsToNat (ds : PyStr) : Nat :=
  ds.foldl (fun n c => n * 10 + (c.toNat - 48)) 0

/-! ## OSPF running-config cost parsing (`topology_builder.py` lines 341-388) -/

namespace TopologyBuilder

/-- Model of `re.search(r'cost\s+(\d+)', s)` followed by `int(group(1))`:
scan left to right for "cost", then at least one whitespace character, then
a maximal digit run. -/
def parseWsDigits (s : PyStr) : Option Nat :=
  let ws := s.takeWhile (pyIsSpace ·)
  let ds := (s.drop ws.length).takeWhile (fun c => c.isDigit)
  if ws = [] ∨ ds = [] then none else some (digitsToNat ds)

def searchCostNum : PyStr → Option Nat
  | [] => none
  | c :: r =>
    match (if (lit "cost").isPrefixOf (c :: r) then parseWsDigits ((c :: r).drop 4) else none) with
    | some v => some v
    | none => searchCostNum r

/-- Parse state of `_parse_running_config_router_ospf`: the accumulated
`configured_costs` dict, the `current_interface` context and the
`in_ospf_area` flag. -/
structure ConfigParseState where
  configured : List (PyStr × Nat)
  current : Option PyStr
  inArea : Bool
deriving DecidableEq

/-- One loop iteration of `_parse_running_config_router_ospf`. -/
def configStep (st : ConfigParseState) (line : PyStr) : ConfigParseState :=
  let stripped := pyStrip line
  if pyStartsWith stripped (lit "area ") then { st with inArea := true }
  else if st.inArea && pyStartsWith stripped (lit "interface ") then
    { st with current := some (pyStrip (pyReplaceAll stripped (lit "interface ") [])) }
  else
    let st1 :=
      match st.current with
      | some intf =>
        if intf ≠ [] ∧ pyContains stripped (lit "cost ") then
          match searchCostNum stripped with
          | some c => { st with configured := asetKV st.configured intf c }
          | none => st
        else st
      | none => st
    if stripped = lit "!" then { st1 with current := none } else st1

/-- Embedding of `TopologyBuilder._parse_running_config_router_ospf`. -/
def parse_running_config_router_ospf (content : PyStr) : List (PyStr × Nat) :=
  ((pySplitLines content).foldl configStep ⟨[], none, false⟩).configured

/-! ### Cost resolution for directional links (`topology_builder.py` lines 706-747) -/

/-- The `DEFAULT_OSPF_COST` constant. -/
def DEFAULT_OSPF_COST : Nat := 1

/-- Python truthiness of the `ospf_cost` variable: `None` and `0` are falsy. -/
def costTruthy : Option Nat → Bool
  | none => false
  | some n => n ≠ 0

/-- Method 3 of cost resolution: first Router-LSA link cost whose link id is
in the aggregated network map with both routers attached. -/
def findLsaCost : List (PyStr × Nat) → List (PyStr × List PyStr) → PyStr → PyStr → Option Nat
  | [], _, _, _ => none
  | (link_id, cost) :: rest, nm, src, nbr =>
    match alookup nm link_id with
    | some attached =>
      if src ∈ attached ∧ nbr ∈ attached then some cost else findLsaCost rest nm src nbr
    | none => findLsaCost rest nm src nbr

/-- Embedding of the four-tier cost resolution of `build_topology`:
configured cost, then operational interface cost, then LSA cost, then the
default — where, as in the source, a stored cost of `0` counts as "no cost
found" at each `if not ospf_cost` check. -/
def resolve_ospf_cost (configured_costs interface_costs : List (PyStr × Nat))
    (link_costs : List (PyStr × Nat)) (global_network_map : List (PyStr × List PyStr))
    (source_router_id neighbor_id interface : PyStr) : Nat × PyStr :=
  let normalized := normalize_interface_name interface
  let r1 : Option Nat × Option PyStr :=
    match alookup configured_costs normalized with
    | some v => (some v, some (lit "configured"))
    | none => (none, none)
  let r2 :=
    if costTruthy r1.1 then r1
    else
      match alookup interface_costs interface with
      | some v => (some v, some (lit "operational"))
      | none =>
        match alookup interface_costs normalized with
        | some v => (some v, some (lit "operational"))
        | none => r1
  let r3 :=
    if costTruthy r2.1 then r2
    else
      match findLsaCost link_costs global_network_map source_router_id neighbor_id with
      | some v => (some v, some (lit "lsa"))
      | none => r2
  if costTruthy r3.1 then (r3.1.getD 0, r3.2.getD [])
  else (DEFAULT_OSPF_COST, lit "default")

/-- A directional OSPF link as emitted by `build_topology` phase 5. -/
structure DirLink where
  id : PyStr
  source : PyStr
  target : PyStr
  cost : Nat
  cost_source : PyStr
  source_interface : PyStr
  target_interface : PyStr
  status : PyStr
deriving DecidableEq

/-- Python truthiness of the `valid_devices` argument combined with the
allowlist check: skip the row iff the list is given, non-empty, and does not
contain the neighbor. -/
def skipByValidDevices (valid_devices : Option (List PyStr)) (neighbor_name : PyStr) : Bool :=
  match valid_devices with
  | some vd => vd ≠ [] ∧ neighbor_name ∉ vd
  | none => false

/-- Embedding of the per-row body of the phase-5 neighbor loop of
`build_topology` (lines 680-762): split the row, keep FULL non-management
adjacencies to known non-self neighbors, resolve the cost, and emit the
directional link (whose running id is supplied by the caller). -/
def processNeighborRow (device_name : PyStr) (router_id_to_device : List (PyStr × PyStr))
    (valid_devices : Option (List PyStr))
    (configured_costs interface_costs link_costs : List (PyStr × Nat))
    (global_network_map : List (PyStr × List PyStr)) (source_router_id : PyStr)
    (link_id_counter : Nat) (line : PyStr) : Option DirLink :=
  let parts := pySplitWs line
  if parts.length ≥ 6 then
    let neighbor_id := parts.getD 0 []
    let state := parts.getD 2 []
    let interface := parts.getD 5 []
    if ¬ pyContains state (lit "FULL") = true then none
    else if pyContains interface (lit "Mgmt") || pyContains interface (lit "Management") ||
        pyContains interface (lit "Ma0") then none
    else
      let neighbor_name := (alookup router_id_to_device neighbor_id).getD neighbor_id
      if skipByValidDevices valid_devices neighbor_name then none
      else if neighbor_name = device_name then none
      else
        let rc := resolve_ospf_cost configured_costs interface_costs link_costs
          global_network_map source_router_id neighbor_id interface
        some
          { id := device_name ++ lit "-" ++ neighbor_name ++ lit "-" ++ natDigits link_id_counter
            source := device_name
            target := neighbor_name
            cost := rc.1
            cost_source := rc.2
            source_interface := interface
            target_interface := lit "unknown"
            status := lit "up" }
  else none

end TopologyBuilder

/-- A concrete `show running-config router ospf` output whose only
configured cost is 0, for the C5 counterexample. -/
def cexOspfConfig : PyStr :=
  lit "router ospf 1\n area 0\n  interface GigabitEthernet0/0/0/1\n   cost 0\n  !\n!"

/-- Counterexample to C5: parsed from a concrete running config, the
configured-cost map has entry 0 for the normalized interface of a kept FULL
adjacency, yet the emitted directional link carries cost 1 from source
"default" — `if not ospf_cost` discards a configured cost of 0. -/
theorem configured_cost_zero_cex :
    alookup (TopologyBuilder.parse_running_config_router_ospf cexOspfConfig)
        (TopologyBuilder.normalize_interface_name (lit "Gi0/0/0/1")) = some 0 ∧
      TopologyBuilder.processNeighborRow (lit "usa-r1") [(lit "172.16.2.2", lit "usa-r2")]
          none (TopologyBuilder.parse_running_config_router_ospf cexOspfConfig) [] [] []
          (lit "172.16.1.1") 1
          (lit "172.16.2.2      1     FULL/DR         00:00:35    172.13.0.2      Gi0/0/0/1") =
        some
          { id := lit "usa-r1-usa-r2-1"
            source := lit "usa-r1"
            target := lit "usa-r2"
            cost := 1
            cost_source := lit "default"
            source_interface := lit "Gi0/0/0/1"
            target_interface := lit "unknown"
            status := lit "up" } := by
  constructor
  · decide
  · decide

/-- C5 (amended): whenever the configured-cost map has a nonzero entry for
the normalized source interface of a kept FULL adjacency, the emitted
directional link has that cost with cost_source "configured", regardless of
operational, LSA or default costs; a configured cost of 0 is treated as
absent and resolution falls through to the remaining tiers. -/
theorem configured_cost_priority (device_name : PyStr)
    (router_id_to_device : List (PyStr × PyStr)) (valid_devices : Option (List PyStr))
    (configured_costs interface_costs link_costs : List (PyStr × Nat))
    (global_network_map : List (PyStr × List PyStr)) (source_router_id : PyStr)
    (counter : Nat) (line : PyStr) (link : TopologyBuilder.DirLink) (c : Nat)
    (hrow : TopologyBuilder.processNeighborRow device_name router_id_to_device valid_devices
      configured_costs interface_costs link_costs global_network_map source_router_id
      counter line = some link)
    (hcfg : alookup configured_costs
      (TopologyBuilder.normalize_interface_name link.source_interface) = some c)
    (hc : c ≠ 0) :
    link.cost = c ∧ link.cost_source = lit "configured" := by
  simp only [TopologyBuilder.processNeighborRow] at hrow
  split_ifs at hrow <;> try exact Option.noConfusion hrow
  have hlink := Option.some.inj hrow
  have hintf : link.source_interface = (pySplitWs line).getD 5 [] := by
    rw [← hlink]
  rw [hintf] at hcfg
  rw [← hlink]
  simp only [TopologyBuilder.resolve_ospf_cost, hcfg]
  have htr : TopologyBuilder.costTruthy (some c) = true := by
    simp [TopologyBuilder.costTruthy, hc]
  simp [htr]

/-- Witness for C5 (amended): a concrete row with configured cost 200. -/
theorem configured_cost_priority_witness :
    ∃ link : TopologyBuilder.DirLink,
      TopologyBuilder.processNeighborRow (lit "usa-r1") [(lit "172.16.2.2", lit "usa-r2")]
          none [(lit "GigabitEthernet0/0/0/1", 200)] [(lit "Gi0/0/0/1", 77)] [] []
          (lit "172.16.1.1") 1
          (lit "172.16.2.2      1     FULL/DR         00:00:35    172.13.0.2      Gi0/0/0/1") =
        some link ∧
        link.cost = 200 ∧ link.cost_source = lit "configured" := by
  refine ⟨⟨lit "usa-r1-usa-r2-1", lit "usa-r1", lit "usa-r2", 200, lit "configured",
      lit "Gi0/0/0/1", lit "unknown", lit "up"⟩, by decide, ?_⟩
  exact configured_cost_priority (lit "usa-r1") [(lit "172.16.2.2", lit "usa-r2")] none
    [(lit "GigabitEthernet0/0/0/1", 200)] [(lit "Gi0/0/0/1", 77)] [] [] (lit "172.16.1.1") 1
    (lit "172.16.2.2      1     FULL/DR         00:00:35    172.13.0.2      Gi0/0/0/1")
    _ 200 (by decide) (by decide) (by decide)

/-! ## Bidirectional pairing of directional links
(`topology_builder.py` lines 779-873) -/

/-- Lexicographic comparison of Python strings by code point (`sorted`). -/
def pyStrLt : PyStr → PyStr → Bool
  | [], [] => false
  | [], _ :: _ => true
  | _ :: _, [] => false
  | c :: r, d :: s => if c = d then pyStrLt r s else decide (c < d)

/-- Model of `sorted([s, t])` on two strings. -/
def sorted2 (s t : PyStr) : PyStr × PyStr := if pyStrLt t s then (t, s) else (s, t)

namespace TopologyBuilder

/-- A key of the `physical_links` dict: `(router_a, router_b, interface_a)`
(with the `B2A-` tag standing in for orphan reverse links). -/
structure PhysKey where
  ra : PyStr
  rb : PyStr
  intf : PyStr
deriving DecidableEq

/-- A value of the `physical_links` dict before consolidation. -/
structure PhysEntry where
  router_a : PyStr
  router_b : PyStr
  cost_a_to_b : Option Nat
  cost_b_to_a : Option Nat
  interface_a : Option PyStr
  interface_b : Option PyStr
  cost_source_a : Option PyStr
  cost_source_b : Option PyStr
deriving DecidableEq

/-- Pass 1 of the pairing algorithm: for every A→B directional link create a
record keyed on `(a, b, interface_a)` unless one already exists. -/
def pass1 (links : List DirLink) : List (PhysKey × PhysEntry) :=
  links.foldl
    (fun acc l =>
      let ab := sorted2 l.source l.target
      if l.source = ab.1 then
        let key : PhysKey := ⟨ab.1, ab.2, l.source_interface⟩
        if (alookup acc key).isSome then acc
        else
          acc ++ [(key,
            { router_a := ab.1
              router_b := ab.2
              cost_a_to_b := some l.cost
              cost_b_to_a := none
              interface_a := some l.source_interface
              interface_b := none
              cost_source_a := some l.cost_source
              cost_source_b := none })]
      else acc)
    []

/-- The matching policy of pass 2: scan records for the pair `(a, b)`,
breaking on an exact interface-name match with empty `interface_b`,
otherwise remembering the last record with empty `interface_b`. -/
def findMatchKey : List (PhysKey × PhysEntry) → PyStr → PyStr → PyStr → Option PhysKey →
    Option PhysKey
  | [], _, _, _, acc => acc
  | (k, p) :: rest, a, b, ifb, acc =>
    if k.ra = a ∧ k.rb = b then
      if p.interface_a = some ifb ∧ p.interface_b = none then some k
      else if p.interface_b = none then findMatchKey rest a b ifb (some k)
      else findMatchKey rest a b ifb acc
    else findMatchKey rest a b ifb acc

/-- Pass 2 of the pairing algorithm: match every B→A directional link to a
pass-1 record, or store it as an orphan record. -/
def pass2 (links : List DirLink) (entries0 : List (PhysKey × PhysEntry)) :
    List (PhysKey × PhysEntry) :=
  links.foldl
    (fun acc l =>
      let ab := sorted2 l.source l.target
      if l.source = ab.2 then
        match findMatchKey acc ab.1 ab.2 l.source_interface none with
        | some k =>
          amodify acc k
            (fun p =>
              { p with
                cost_b_to_a := some l.cost
                interface_b := some l.source_interface
                cost_source_b := some l.cost_source })
        | none =>
          asetKV acc ⟨ab.1, ab.2, lit "B2A-" ++ l.source_interface⟩
            { router_a := ab.1
              router_b := ab.2
              cost_a_to_b := none
              cost_b_to_a := some l.cost
              interface_a := none
              interface_b := some l.source_interface
              cost_source_a := none
              cost_source_b := some l.cost_source }
      else acc)
    entries0

/-- A consolidated physical link with the asymmetry flag. -/
structure PhysLink where
  id : PyStr
  router_a : PyStr
  router_b : PyStr
  cost_a_to_b : Option Nat
  cost_b_to_a : Option Nat
  interface_a : Option PyStr
  interface_b : Option PyStr
  cost_source_a : Option PyStr
  cost_source_b : Option PyStr
  is_asymmetric : Bool
  status : PyStr
deriving DecidableEq

/-- The `SHORTEN_MAP` table of `TopologyBuilder._shorten_interface_name`. -/
def SHORTEN_MAP : List (PyStr × PyStr) :=
  [ (lit "HundredGigE", lit "Hu")
  , (lit "FortyGigE", lit "Fo")
  , (lit "TwentyFiveGigE", lit "Tf")
  , (lit "TenGigE", lit "Te")
  , (lit "GigabitEthernet", lit "Gi")
  , (lit "Bundle-Ether", lit "BE")
  , (lit "Loopback", lit "Lo")
  , (lit "MgmtEth", lit "Mg")
  , (lit "BVI", lit "BVI")
  , (lit "tunnel-ip", lit "tip")
  , (lit "tunnel-te", lit "tte")
  , (lit "NVE", lit "NVE") ]

/-- Embedding of `TopologyBuilder._shorten_interface_name`. -/
def shorten_interface_name (interface : PyStr) : PyStr :=
  let r :=
    match SHORTEN_MAP.find? (fun p => pyStartsWith interface p.1) with
    | some pr => pyReplaceFirst interface pr.1 pr.2
    | none => interface
  r.filter (fun c => c ≠ '/')

/-- The consolidation step that turns one `physical_links` record into the
emitted physical link, computing `is_asymmetric` exactly as the source:
both costs present and different. -/
def consolidateEntry (p : PhysEntry) : PhysLink :=
  let is_asym := p.cost_a_to_b.isSome && p.cost_b_to_a.isSome &&
    decide (p.cost_a_to_b ≠ p.cost_b_to_a)
  let intf_suffix :=
    match p.interface_a with
    | some ia => if ia ≠ [] then lit "-" ++ shorten_interface_name ia else []
    | none => []
  { id := p.router_a ++ lit "-" ++ p.router_b ++ intf_suffix
    router_a := p.router_a
    router_b := p.router_b
    cost_a_to_b := p.cost_a_to_b
    cost_b_to_a := p.cost_b_to_a
    interface_a := p.interface_a
    interface_b := p.interface_b
    cost_source_a := p.cost_source_a
    cost_source_b := p.cost_source_b
    is_asymmetric := is_asym
    status := lit "up" }

/-- The full pipeline from directional links to consolidated physical links. -/
def build_physical_links (links : List DirLink) : List PhysLink :=
  (pass2 links (pass1 links)).map (fun e => consolidateEntry e.2)

end TopologyBuilder

/-- C7: every physical link produced by the bidirectional pairing algorithm
has is_asymmetric true iff both directional costs are present and differ; a
link with either cost missing is never marked asymmetric. -/
theorem physical_link_asymmetric_iff (links : List TopologyBuilder.DirLink)
    (pl : TopologyBuilder.PhysLink) (hmem : pl ∈ TopologyBuilder.build_physical_links links) :
    pl.is_asymmetric = true ↔
      ∃ x y, pl.cost_a_to_b = some x ∧ pl.cost_b_to_a = some y ∧ x ≠ y := by
  rw [TopologyBuilder.build_physical_links, List.mem_map] at hmem
  obtain ⟨e, -, rfl⟩ := hmem
  simp only [TopologyBuilder.consolidateEntry]
  cases ha : e.2.cost_a_to_b with
  | none => simp [ha]
  | some x =>
    cases hb : e.2.cost_b_to_a with
    | none => simp [ha, hb]
    | some y => simp [ha, hb]

/-- Two concrete asymmetric directional links for the C7 witness. -/
def cexDirLinks : List TopologyBuilder.DirLink :=
  [ ⟨lit "A-B-1", lit "A", lit "B", 200, lit "configured", lit "Gi0/0/0/1",
      lit "unknown", lit "up"⟩
  , ⟨lit "B-A-2", lit "B", lit "A", 500, lit "configured", lit "Gi0/0/0/1",
      lit "unknown", lit "up"⟩ ]

/-- Witness for C7: the physical link built from a concrete asymmetric pair
is flagged asymmetric by the theorem. -/
theorem physical_link_asymmetric_iff_witness :
    ∃ pl ∈ TopologyBuilder.build_physical_links cexDirLinks, pl.is_asymmetric = true := by
  have hmem : TopologyBuilder.consolidateEntry
      { router_a := lit "A", router_b := lit "B", cost_a_to_b := some 200,
        cost_b_to_a := some 500, interface_a := some (lit "Gi0/0/0/1"),
        interface_b := some (lit "Gi0/0/0/1"), cost_source_a := some (lit "configured"),
        cost_source_b := some (lit "configured") } ∈
      TopologyBuilder.build_physical_links cexDirLinks := by decide
  refine ⟨_, hmem, ?_⟩
  exact (physical_link_asymmetric_iff cexDirLinks _ hmem).mpr
    ⟨200, 500, by decide, by decide, by decide⟩

/-! ## Batch splitting (`command_executor.py` line 1016)

`batches = [device_list[i:i + batch_size] for i in range(0, len(device_list), batch_size)]` -/

/-- Model of Python `range(0, n, bs)`: a zero step raises `ValueError`. -/
def pyRange0 (n bs : Nat) : Except PyStr (List Nat) :=
  if bs = 0 then Except.error (lit "ValueError: range() arg 3 must not be zero")
  else Except.ok ((List.range ((n + bs - 1) / bs)).map (fun k => k * bs))

/-- Model of the batch-splitting list comprehension of `execute_job_async`:
slices `device_list[i:i + batch_size]` over `range(0, len, batch_size)`. -/
def pySliceBatches {α : Type} (l : List α) (bs : Nat) : Except PyStr (List (List α)) :=
  (pyRange0 l.length bs).map (fun starts => starts.map (fun i => (l.drop i).take bs))

/-- The intended chunking (fuel-driven for termination). -/
def pyChunksAux {α : Type} (bs : Nat) : Nat → List α → List (List α)
  | 0, _ => []
  | _ + 1, [] => []
  | fuel + 1, c :: r => ((c :: r).take bs) :: pyChunksAux bs fuel ((c :: r).drop bs)

def pyChunks {α : Type} (l : List α) (bs : Nat) : List (List α) := pyChunksAux bs l.length l

theorem count_drop_step (n bs : Nat) (hbs : 1 ≤ bs) :
    (n - bs + bs - 1) / bs = (n - 1) / bs := by
  rcases le_or_lt n bs with h | h
  · have h1 : n - bs = 0 := by omega
    rw [h1]
    rw [Nat.div_eq_of_lt (by omega), Nat.div_eq_of_lt (by omega)]
  · congr 1
    omega

theorem slice_eq_chunks_aux {α : Type} (bs : Nat) (hbs : 1 ≤ bs) :
    ∀ fuel (l : List α), l.length ≤ fuel →
      (List.range ((l.length + bs - 1) / bs)).map (fun k => (l.drop (k * bs)).take bs) =
        pyChunksAux bs fuel l := by
  intro fuel
  induction fuel with
  | zero =>
    intro l hl
    have hl0 : l = [] := List.length_eq_zero.mp (by omega)
    subst hl0
    have h0 : (bs - 1) / bs = 0 := Nat.div_eq_of_lt (by omega)
    simp [pyChunksAux, h0]
  | succ fuel ih =>
    intro l hl
    cases l with
    | nil =>
      have h0 : (bs - 1) / bs = 0 := Nat.div_eq_of_lt (by omega)
      simp [pyChunksAux, h0]
    | cons c r =>
      have hn : (c :: r).length = r.length + 1 := by simp
      have hcount : ((c :: r).length + bs - 1) / bs = ((c :: r).length - 1) / bs + 1 := by
        have : (c :: r).length + bs - 1 = ((c :: r).length - 1) + bs := by
          simp only [hn]; omega
        rw [this, Nat.add_div_right _ (by omega)]
      rw [hcount, List.range_succ_eq_map]
      simp only [List.map_cons, List.map_map]
      rw [pyChunksAux]
      congr 1
      · simp
      · have hdl : ((c :: r).drop bs).length = (c :: r).length - bs := by simp
        have := ih ((c :: r).drop bs) (by simp only [hdl, hn]; omega)
        rw [← this, hdl, count_drop_step _ bs hbs]
        apply List.map_congr_left
        intro k hk
        simp only [Function.comp]
        rw [Nat.succ_mul, Nat.add_comm, ← List.drop_drop]

theorem slice_eq_chunks {α : Type} (l : List α) (bs : Nat) (hbs : 1 ≤ bs) :
    pySliceBatches l bs = Except.ok (pyChunks l bs) := by
  unfold pySliceBatches pyRange0 pyChunks
  rw [if_neg (by omega)]
  simp only [Except.map, List.map_map]
  rw [show ((fun i => List.take bs (List.drop i l)) ∘ fun k => k * bs) =
      (fun k => List.take bs (List.drop (k * bs) l)) from rfl]
  rw [slice_eq_chunks_aux bs hbs l.length l le_rfl]

theorem chunks_join {α : Type} (bs : Nat) (hbs : 1 ≤ bs) :
    ∀ fuel (l : List α), l.length ≤ fuel → (pyChunksAux bs fuel l).flatten = l := by
  intro fuel
  induction fuel with
  | zero =>
    intro l hl
    have : l = [] := List.length_eq_zero.mp (by omega)
    subst this
    simp [pyChunksAux]
  | succ fuel ih =>
    intro l hl
    cases l with
    | nil => simp [pyChunksAux]
    | cons c r =>
      rw [pyChunksAux, List.flatten_cons]
      rw [ih ((c :: r).drop bs) (by simp; simp at hl; omega)]
      exact List.take_append_drop bs (c :: r)

theorem chunks_nonempty {α : Type} (bs : Nat) (hbs : 1 ≤ bs) :
    ∀ fuel (l : List α) chunk, chunk ∈ pyChunksAux bs fuel l → chunk ≠ [] := by
  intro fuel
  induction fuel with
  | zero => intro l chunk h; simp [pyChunksAux] at h
  | succ fuel ih =>
    intro l chunk h
    cases l with
    | nil => simp [pyChunksAux] at h
    | cons c r =>
      rw [pyChunksAux, List.mem_cons] at h
      rcases h with h | h
      · subst h
        cases bs with
        | zero => omega
        | succ b => simp [List.take]
      · exact ih _ chunk h

/-- C4 (code evaluated at the failing input): splitting any non-empty device
list with batch_size 0 raises `ValueError` instead of yielding one batch,
while every batch_size at least 1 yields non-empty batches that concatenate
back to the device list. -/
theorem batch_split_zero (l : List PyStr) :
    pySliceBatches l 0 = Except.error (lit "ValueError: range() arg 3 must not be zero") ∧
      ∀ bs, 1 ≤ bs → ∃ chunks, pySliceBatches l bs = Except.ok chunks ∧
        chunks.flatten = l ∧ ∀ chunk ∈ chunks, chunk ≠ [] := by
  constructor
  · simp [pySliceBatches, pyRange0, Except.map]
  · intro bs hbs
    exact ⟨pyChunks l bs, slice_eq_chunks l bs hbs,
      chunks_join bs hbs l.length l le_rfl,
      fun chunk hc => chunks_nonempty bs hbs l.length l chunk hc⟩

/-- Witness for C4's theorem at concrete inputs: one device, batch sizes 0
and 2. -/
theorem batch_split_zero_witness :
    pySliceBatches [lit "r1"] 0 =
        Except.error (lit "ValueError: range() arg 3 must not be zero") ∧
      pySliceBatches [lit "r1", lit "r2", lit "r3"] 2 =
        Except.ok [[lit "r1", lit "r2"], [lit "r3"]] := by
  constructor
  · exact (batch_split_zero [lit "r1"]).1
  · obtain ⟨chunks, hok, -, -⟩ := (batch_split_zero [lit "r1", lit "r2", lit "r3"]).2 2
      (by omega)
    rw [hok]
    have : chunks = [[lit "r1", lit "r2"], [lit "r3"]] := by
      have h2 := hok
      rw [slice_eq_chunks _ 2 (by omega)] at h2
      have := Except.ok.inj h2
      rw [← this]
      decide
    rw [this]

/-! ## Command execution and artifact writing
(`command_executor.py` lines 800-918) -/

/-- Contents written to an artifact file. -/
inductive FileContent where
  | textFile (banner : PyStr) (raw : PyStr)
  | jsonFile (command device_id device_name timestamp : PyStr) (execution_time : ℚ)
      (raw_output : PyStr)
deriving DecidableEq

/-- Filesystem operations performed while persisting artifacts. -/
inductive FsOp where
  | openW (path : PyStr)
  | writeF (path : PyStr) (content : FileContent)
  | flushF (path : PyStr)
  | fsyncF (path : PyStr)
  | closeF (path : PyStr)
  | renameF (src dst : PyStr)
deriving DecidableEq

/-- The result dict of `execute_command`; absent keys are `none`. -/
structure CmdResult where
  status : PyStr
  command : PyStr
  device_id : PyStr
  device_name : PyStr
  output : Option PyStr
  output_length : Option Nat
  execution_time_seconds : Option ℚ
  filename : Option PyStr
  filepath : Option PyStr
  timestamp : Option PyStr
  error : Option PyStr
  error_type : Option PyStr
deriving DecidableEq

/-- The environment a single `execute_command` call runs against: whether the
connection map holds the device, what `send_command` does, whether either
artifact write raises, and the formatted clock values. -/
structure ExecCmdEnv where
  connected : Bool
  sendResult : Except PyStr PyStr
  textWriteErr : Option PyStr
  jsonWriteErr : Option PyStr
  timestampStr : PyStr
  isoTimestamp : PyStr
  execTime : ℚ
  execTimeStr : PyStr

/-- Model of `command.replace(" ", "_").replace("/", "-")`. -/
def commandSlug (command : PyStr) : PyStr :=
  command.map (fun c => if c = ' ' then '_' else if c = '/' then '-' else c)

/-- The 5-line comment banner written at the head of the TEXT artifact. -/
def textBanner (env : ExecCmdEnv) (device_id device_name command : PyStr) : PyStr :=
  lit "# Command: " ++ command ++
  lit "\n# Device: " ++ device_name ++ lit " (" ++ device_id ++
  lit ")\n# Timestamp: " ++ env.isoTimestamp ++
  lit "\n# Execution Time: " ++ env.execTimeStr ++
  lit "s\n#" ++ List.replicate 78 '=' ++ lit "\n\n"

/-- An error result of `execute_command` (both `except` handlers build this
shape, differing only in `error_type`). -/
def cmdErrorResult (device_id device_name command e etype : PyStr) : CmdResult :=
  { status := lit "error", command := command, device_id := device_id,
    device_name := device_name, output := none, output_length := none,
    execution_time_seconds := none, filename := none, filepath := none,
    timestamp := none, error := some e, error_type := some etype }

/-- Embedding of `CommandExecutor.execute_command`: look up the connection,
send the command, write the TEXT artifact (open final path, write, flush,
fsync, close), then the JSON artifact the same way; every raised exception is
converted into an error result.  On a write failure only the `open` of the
failing file has happened.  Returns the result dict and the filesystem trace. -/
def execute_command (env : ExecCmdEnv) (text_output_dir json_output_dir : PyStr)
    (device_id device_name command : PyStr) : CmdResult × List FsOp :=
  if env.connected = false then
    (cmdErrorResult device_id device_name command
      (lit "Device " ++ device_id ++ lit " not connected") (lit "connection_error"), [])
  else
    match env.sendResult with
    | Except.error e =>
      (cmdErrorResult device_id device_name command e (lit "execution_error"), [])
    | Except.ok output =>
      let filename := device_name ++ lit "_" ++ commandSlug command ++ lit "_" ++
        env.timestampStr ++ lit ".txt"
      let filepath := text_output_dir ++ lit "/" ++ filename
      match env.textWriteErr with
      | some e =>
        (cmdErrorResult device_id device_name command e (lit "execution_error"),
          [FsOp.openW filepath])
      | none =>
        let textOps : List FsOp :=
          [FsOp.openW filepath,
           FsOp.writeF filepath (FileContent.textFile
             (textBanner env device_id device_name command) output),
           FsOp.flushF filepath, FsOp.fsyncF filepath, FsOp.closeF filepath]
        let json_filename := device_name ++ lit "_" ++ commandSlug command ++ lit "_" ++
          env.timestampStr ++ lit ".json"
        let json_filepath := json_output_dir ++ lit "/" ++ json_filename
        match env.jsonWriteErr with
        | some e =>
          (cmdErrorResult device_id device_name command e (lit "execution_error"),
            textOps ++ [FsOp.openW json_filepath])
        | none =>
          (⟨lit "success", command, device_id, device_name, some output,
              some output.length, some env.execTime, some filename, some filepath,
              some env.isoTimestamp, none, none⟩,
            textOps ++
              [FsOp.openW json_filepath,
               FsOp.writeF json_filepath (FileContent.jsonFile command device_id
                 device_name env.isoTimestamp env.execTime output),
               FsOp.flushF json_filepath, FsOp.fsyncF json_filepath,
               FsOp.closeF json_filepath])

/-- C10: execute_command is total at its public interface: for every
environment (missing connection, transport or timeout error, filesystem
error on either artifact) and all inputs, it returns a result whose status
is "success" or "error", and every error result carries the error message
and an error type rather than propagating an exception. -/
theorem execute_command_total (env : ExecCmdEnv) (tdir jdir device_id device_name
    command : PyStr) :
    (execute_command env tdir jdir device_id device_name command).1.status = lit "success" ∨
      ((execute_command env tdir jdir device_id device_name command).1.status = lit "error" ∧
        (execute_command env tdir jdir device_id device_name command).1.error.isSome = true ∧
        (execute_command env tdir jdir device_id device_name
          command).1.error_type.isSome = true) := by
  unfold execute_command
  rcases env with ⟨conn, send, terr, jerr, ts, iso, et, ets⟩
  cases conn <;> cases send <;> cases terr <;> cases jerr <;>
    simp [cmdErrorResult]

/-- Predicate modelled from the spec: "written atomically (write to temp,
fsync, rename)" — the trace installs the final path only via a rename from a
distinct temporary file and never opens or writes the final path directly. -/
def isRenameTo (final : PyStr) : FsOp → Bool
  | FsOp.renameF src dst => dst = final && src ≠ final
  | _ => false

def touchesDirectly (path : PyStr) : FsOp → Bool
  | FsOp.writeF p _ => p = path
  | FsOp.openW p => p = path
  | _ => false

def specAtomicWrite (trace : List FsOp) (final : PyStr) : Prop :=
  (∃ op ∈ trace, isRenameTo final op = true) ∧
    ∀ op ∈ trace, touchesDirectly final op = false

/-- A concrete environment in which the command succeeds fully. -/
def cexExecEnv : ExecCmdEnv :=
  { connected := true
    sendResult := Except.ok (lit "Cisco IOS XR Software")
    textWriteErr := none
    jsonWriteErr := none
    timestampStr := lit "2025-01-01_00-00-00"
    isoTimestamp := lit "2025-01-01T00:00:00"
    execTime := 1
    execTimeStr := lit "1.00" }

/-- Counterexample to C3: for a concrete successfully executed command the
TEXT artifact's final path is opened and written directly and the trace
contains no rename, so the claimed temp-fsync-rename pattern does not hold
(and likewise for the JSON artifact). -/
theorem atomic_artifact_write_cex :
    (execute_command cexExecEnv (lit "TEXT") (lit "JSON") (lit "r1") (lit "usa-r1")
        (lit "show version")).1.status = lit "success" ∧
      ¬ specAtomicWrite
          (execute_command cexExecEnv (lit "TEXT") (lit "JSON") (lit "r1") (lit "usa-r1")
            (lit "show version")).2
          (lit "TEXT/usa-r1_show_version_2025-01-01_00-00-00.txt") ∧
      ¬ specAtomicWrite
          (execute_command cexExecEnv (lit "TEXT") (lit "JSON") (lit "r1") (lit "usa-r1")
            (lit "show version")).2
          (lit "JSON/usa-r1_show_version_2025-01-01_00-00-00.json") := by
  refine ⟨by decide, ?_, ?_⟩ <;> (simp only [specAtomicWrite]; decide)

/-- C3 (amended): for every successfully executed command both artifacts are
written directly at their final paths — open, write banner plus output (resp.
the JSON payload), flush, fsync, close, in that order — and the trace
contains no rename and no temporary file, so the write is not atomic against
a concurrent reader of the final path. -/
theorem artifact_write_direct (env : ExecCmdEnv) (tdir jdir device_id device_name
    command : PyStr) (output : PyStr)
    (hconn : env.connected = true) (hsend : env.sendResult = Except.ok output)
    (htext : env.textWriteErr = none) (hjson : env.jsonWriteErr = none) :
    (execute_command env tdir jdir device_id device_name command).2 =
        (let filename := device_name ++ lit "_" ++ commandSlug command ++ lit "_" ++
          env.timestampStr ++ lit ".txt"
        let filepath := tdir ++ lit "/" ++ filename
        let json_filepath := jdir ++ lit "/" ++ (device_name ++ lit "_" ++
          commandSlug command ++ lit "_" ++ env.timestampStr ++ lit ".json")
        [FsOp.openW filepath,
         FsOp.writeF filepath (FileContent.textFile
           (textBanner env device_id device_name command) output),
         FsOp.flushF filepath, FsOp.fsyncF filepath, FsOp.closeF filepath,
         FsOp.openW json_filepath,
         FsOp.writeF json_filepath (FileContent.jsonFile command device_id device_name
           env.isoTimestamp env.execTime output),
         FsOp.flushF json_filepath, FsOp.fsyncF json_filepath,
         FsOp.closeF json_filepath]) ∧
      ∀ final, ¬ specAtomicWrite
        (execute_command env tdir jdir device_id device_name command).2 final := by
  refine ⟨?_, ?_⟩
  · simp [execute_command, hconn, hsend, htext, hjson]
  · intro final h
    obtain ⟨⟨op, hmem, hren⟩, -⟩ := h
    simp only [execute_command, hconn, hsend, htext, hjson] at hmem
    simp only [if_neg (by simp : ¬ true = false), List.mem_append, List.mem_cons,
      List.not_mem_nil, or_false] at hmem
    rcases hmem with (h | h | h | h | h) | (h | h | h | h | h) <;> subst h <;>
      simp [isRenameTo] at hren

/-- Witness for C3 (amended) at the concrete successful environment: the
write of the final text artifact path is not atomic in the spec's sense. -/
theorem artifact_write_direct_witness :
    ¬ specAtomicWrite
      (execute_command cexExecEnv (lit "TEXT") (lit "JSON") (lit "r1") (lit "usa-r1")
        (lit "show version")).2
      (lit "TEXT/usa-r1_show_version_20250101_000000.txt") :=
  (artifact_write_direct cexExecEnv (lit "TEXT") (lit "JSON") (lit "r1") (lit "usa-r1")
    (lit "show version") (lit "Cisco IOS XR Software") rfl rfl rfl rfl).2
    (lit "TEXT/usa-r1_show_version_20250101_000000.txt")

/-! ## IEEE-754 binary64 model

Python computes `int((completed_devices / total_devices) * 100)` in double
precision.  Fractions are kept exact (numerator and denominator, denominator
positive) and every Python float operation rounds its exact result to the
53-bit binary64 grid, round to nearest, ties to even (normal range; the
values the job manager computes never leave it). -/

/-- An exact fraction with positive denominator. -/
structure FQ where
  num : Int
  den : Int
deriving DecidableEq

def FQ.ofNat (n : Nat) : FQ := ⟨n, 1⟩

/-- Bit length of a natural number below 2^128, by binary search. -/
def bitLen (n : Nat) : Nat :=
  let p1 := if n ≥ 18446744073709551616 then (n / 18446744073709551616, 64) else (n, 0)
  let p2 := if p1.1 ≥ 4294967296 then (p1.1 / 4294967296, 32) else (p1.1, 0)
  let p3 := if p2.1 ≥ 65536 then (p2.1 / 65536, 16) else (p2.1, 0)
  let p4 := if p3.1 ≥ 256 then (p3.1 / 256, 8) else (p3.1, 0)
  let p5 := if p4.1 ≥ 16 then (p4.1 / 16, 4) else (p4.1, 0)
  let p6 := if p5.1 ≥ 4 then (p5.1 / 4, 2) else (p5.1, 0)
  let p7 := if p6.1 ≥ 2 then 1 else 0
  p1.2 + p2.2 + p3.2 + p4.2 + p5.2 + p6.2 + p7

/-- Round the positive fraction n/d to the nearest binary64 value. -/
def roundPosFrac (n d : Nat) : FQ :=
  let ln := bitLen n
  let ld := bitLen d
  let e : Int :=
    if ln ≥ ld then
      (if n ≥ d * 2 ^ (ln - ld) then ((ln - ld : Nat) : Int) else ((ln - ld : Nat) : Int) - 1)
    else
      (if n * 2 ^ (ld - ln) ≥ d then -((ld - ln : Nat) : Int)
       else -((ld - ln : Nat) : Int) - 1)
  let k : Int := e - 52
  let big := if 0 ≤ k then (n, d * 2 ^ k.toNat) else (n * 2 ^ (-k).toNat, d)
  let q := big.1 / big.2
  let r := big.1 % big.2
  let m :=
    if 2 * r < big.2 then q
    else if 2 * r > big.2 then q + 1
    else if q % 2 = 0 then q else q + 1
  if 0 ≤ k then ⟨(m : Int) * ((2 ^ k.toNat : Nat) : Int), 1⟩
  else ⟨(m : Int), ((2 ^ (-k).toNat : Nat) : Int)⟩

/-- Round a fraction to the binary64 grid. -/
def roundFQ (x : FQ) : FQ :=
  if x.num = 0 then ⟨0, 1⟩
  else if 0 < x.num then roundPosFrac x.num.toNat x.den.toNat
  else
    let r := roundPosFrac (-x.num).toNat x.den.toNat
    ⟨-r.num, r.den⟩

def FQ.mkSign (n d : Int) : FQ := if d < 0 then ⟨-n, -d⟩ else ⟨n, d⟩
def FQ.mulQ (x y : FQ) : FQ := ⟨x.num * y.num, x.den * y.den⟩
def FQ.divQ (x y : FQ) : FQ := FQ.mkSign (x.num * y.den) (x.den * y.num)
def FQ.subQ (x y : FQ) : FQ := ⟨x.num * y.den - y.num * x.den, x.den * y.den⟩
def FQ.blt (x y : FQ) : Bool := x.num * y.den < y.num * x.den
def FQ.floorQ (x : FQ) : Int := Int.ediv x.num x.den

/-- Python float division (`a / b` on floats).  Python raises
`ZeroDivisionError` for b = 0; the model returns 0 there and the executor
theorems never reach that branch (the job manager divides by
`total_devices`, which is only reached through jobs with at least the
dividing device present). -/
def fdiv (a b : FQ) : FQ := if b.num = 0 then ⟨0, 1⟩ else roundFQ (FQ.divQ a b)

/-- Python float multiplication. -/
def fmul (a b : FQ) : FQ := roundFQ (FQ.mulQ a b)

/-- Conversion of a Python int to float. -/
def pyFloatN (n : Nat) : FQ := roundFQ (FQ.ofNat n)

/-- Model of `int((c / t) * 100)` as CPython computes it in binary64. -/
def pyPercentInt (c t : Nat) : Int :=
  FQ.floorQ (fmul (fdiv (pyFloatN c) (pyFloatN t)) (pyFloatN 100))

/-- Ceiling of a fraction as a natural number (iterations of the 1-second
stop-checking sleep loop). -/
def natCeilFQ (x : FQ) : Nat :=
  if x.num ≤ 0 then 0 else (Int.ediv (x.num + x.den - 1) x.den).toNat

/-! ## Job state (`command_executor.py` JobManager, lines 65-394) -/

/-- One entry of a device's `commands` list. -/
structure CommandEntry where
  command : PyStr
  status : PyStr
  percent : Int
  execution_time : Option FQ
  error : Option PyStr
deriving DecidableEq

/-- One `device_progress` record. -/
structure DeviceProgress where
  device_name : PyStr
  country : PyStr
  status : PyStr
  completed_commands : Nat
  total_commands : Nat
  commands : List CommandEntry
  errors : List PyStr
  percent : Option Int
deriving DecidableEq

/-- One `country_stats` record; fields that the dict acquires only on first
assignment are `Option`s. -/
structure CountryStats where
  total_devices : Nat
  completed_devices : Nat
  running_devices : Nat
  failed_devices : Nat
  pending_devices : Nat
  total_commands : Nat
  completed_commands : Nat
  start_time : Option FQ
  end_time : Option FQ
  elapsed_seconds : FQ
  device_percent : Option Int
  command_percent : Option Int
  percent : Option Int
deriving DecidableEq

/-- The two shapes of the `current_device` dict (`update_device_status`
writes a status view, `update_current_execution` an execution view whose
constant `command_percent`/`command_elapsed_time` zeros are omitted). -/
inductive CurrentDevice where
  | statusView (device_id device_name country status : PyStr)
  | execView (device_id device_name country current_command : PyStr)
      (command_index total_commands : Nat)
deriving DecidableEq

/-- The per-device result dict handed to `update_job_progress`. -/
structure DeviceResult where
  status : Option PyStr
  error : Option PyStr
  summary : Option PyStr
  commands : List CmdResult
deriving DecidableEq

/-- The state of one job under the JobManager (the model manages the single
job all the embedded operations address). -/
structure JobState where
  id : PyStr
  status : PyStr
  start_time : FQ
  end_time : Option FQ
  total_devices : Nat
  completed_devices : Nat
  progress_percent : Int
  results : List (PyStr × DeviceResult)
  errors : List PyStr
  stop_requested : Bool
  device_progress : List (PyStr × DeviceProgress)
  country_stats : List (PyStr × CountryStats)
  current_device : Option CurrentDevice
  execution_id : Option PyStr
deriving DecidableEq

/-- A device entry of the inventory list handed to the executor. -/
structure DeviceInput where
  device_id : PyStr
  device_name : PyStr
  country : Option PyStr
deriving DecidableEq

/-- A fresh `country_stats` bucket as `create_job` initializes it. -/
def initCountryStats : CountryStats :=
  ⟨0, 0, 0, 0, 0, 0, 0, none, none, ⟨0, 1⟩, none, none, none⟩

/-- Embedding of `JobManager.create_job`. -/
def create_job (job_id : PyStr) (device_list : List DeviceInput) (now : FQ) :
    JobState × List PyStr :=
  let init := device_list.foldl
    (fun acc d =>
      let country := d.country.getD (lit "Unknown")
      let dp : DeviceProgress := ⟨d.device_name, country, lit "pending", 0, 0, [], [], none⟩
      let cs0 :=
        if (alookup acc.2 country).isSome then acc.2
        else acc.2 ++ [(country, initCountryStats)]
      let cs1 := amodify cs0 country
        (fun st => { st with total_devices := st.total_devices + 1,
                             pending_devices := st.pending_devices + 1 })
      (asetKV acc.1 d.device_id dp, cs1))
    (([] : List (PyStr × DeviceProgress)), ([] : List (PyStr × CountryStats)))
  ({ id := job_id, status := lit "running", start_time := now, end_time := none,
     total_devices := device_list.length, completed_devices := 0, progress_percent := 0,
     results := [], errors := [], stop_requested := false,
     device_progress := init.1, country_stats := init.2,
     current_device := none, execution_id := none },
   [lit "job_created"])

/-- The statuses `_update_country_stats` buckets as running beside the
literal "running". -/
def isRunningLike (s : PyStr) : Bool :=
  s = lit "connecting" || s = lit "connected" || s = lit "executing" ||
  s = lit "disconnecting"

/-- The per-device body of the `_update_country_stats` loop. -/
def statsForDevice (now : FQ) (dp : DeviceProgress) (st : CountryStats) : CountryStats :=
  let st : CountryStats :=
    if dp.status = lit "completed" then
      { st with completed_devices := st.completed_devices + 1 }
    else if dp.status = lit "running" then
      { st with running_devices := st.running_devices + 1,
                start_time := if st.start_time = none then some now else st.start_time }
    else if dp.status = lit "failed" then
      { st with failed_devices := st.failed_devices + 1 }
    else if isRunningLike dp.status then
      { st with running_devices := st.running_devices + 1,
                start_time := if st.start_time = none then some now else st.start_time }
    else { st with pending_devices := st.pending_devices + 1 }
  let st : CountryStats :=
    if st.total_devices > 0 then
      { st with device_percent := some (pyPercentInt st.completed_devices st.total_devices) }
    else st
  let st : CountryStats :=
    if st.total_commands > 0 then
      { st with command_percent := some (pyPercentInt st.completed_commands st.total_commands) }
    else st
  let st : CountryStats := { st with percent := some (st.command_percent.getD 0) }
  let st : CountryStats :=
    match st.start_time with
    | some t0 => { st with elapsed_seconds := FQ.subQ now t0 }
    | none => st
  if st.completed_devices + st.failed_devices = st.total_devices ∧ st.end_time = none ∧
      st.start_time ≠ none then
    { st with end_time := some now }
  else st

/-- Embedding of `JobManager._update_country_stats`: reset the volatile
counters, then fold the per-device bucketing over `device_progress`. -/
def update_country_stats (s : JobState) (now : FQ) : JobState :=
  let reset := s.country_stats.map
    (fun p =>
      (p.1,
        { p.2 with
          completed_devices := 0
          running_devices := 0
          failed_devices := 0
          pending_devices := 0 }))
  let css := s.device_progress.foldl
    (fun cs pd =>
      if (alookup cs pd.2.country).isSome then
        amodify cs pd.2.country (statsForDevice now pd.2)
      else cs)
    reset
  { s with country_stats := css }

/-- Embedding of `JobManager.update_job_progress` (lines 168-191). -/
def update_job_progress (s : JobState) (device_id : PyStr) (result : DeviceResult)
    (now : FQ) : JobState × List PyStr :=
  let s : JobState := { s with completed_devices := s.completed_devices + 1 }
  let s : JobState := { s with progress_percent := pyPercentInt s.completed_devices s.total_devices }
  let s : JobState := { s with results := asetKV s.results device_id result }
  let s : JobState :=
    if (alookup s.device_progress device_id).isSome then
      { s with
        device_progress := amodify s.device_progress device_id
          (fun dp => { dp with status := result.status.getD (lit "completed") }) }
    else s
  let s : JobState :=
    if s.completed_devices = s.total_devices then
      { s with status := lit "completed", end_time := some now, current_device := none }
    else s
  let s : JobState := update_country_stats s now
  (s, [if s.status = lit "completed" then lit "job_completed" else lit "progress_update"])

/-- Embedding of `JobManager.update_current_execution`. -/
def update_current_execution (s : JobState) (cur : CurrentDevice) : JobState × List PyStr :=
  ({ s with current_device := some cur }, [lit "execution_update"])

/-- Embedding of `JobManager.set_execution_id` (no broadcast). -/
def set_execution_id (s : JobState) (execution_id : PyStr) : JobState × List PyStr :=
  ({ s with execution_id := some execution_id }, [])

/-- Embedding of `JobManager.init_device_commands` (no broadcast). -/
def init_device_commands (s : JobState) (device_id : PyStr) (commands : List PyStr) :
    JobState × List PyStr :=
  match alookup s.device_progress device_id with
  | none => (s, [])
  | some dp =>
    let dp : DeviceProgress :=
      { dp with
        total_commands := commands.length
        commands := commands.map (fun c => ⟨c, lit "pending", 0, none, none⟩) }
    let s : JobState := { s with device_progress := amodify s.device_progress device_id (fun _ => dp) }
    let s : JobState :=
      if (alookup s.country_stats dp.country).isSome then
        { s with
          country_stats := amodify s.country_stats dp.country
            (fun st => { st with total_commands := st.total_commands + commands.length }) }
      else s
    (s, [])

/-- In-place list update `commands[i] = v`, identity out of range. -/
def listSet {β : Type} : List β → Nat → β → List β
  | [], _, _ => []
  | _ :: r, 0, v => v :: r
  | x :: r, n + 1, v => x :: listSet r n v

/-- Embedding of `JobManager.update_device_command_status` (lines 231-284).
Note that, as in the source, the completed-commands increment sits outside
the index-bounds check. -/
def update_device_command_status (s : JobState) (device_id : PyStr) (command_index : Nat)
    (status : PyStr) (execution_time : Option FQ) (error : Option PyStr) (now : FQ) :
    JobState × List PyStr :=
  match alookup s.device_progress device_id with
  | none => (s, [])
  | some dp0 =>
    let dp1 : DeviceProgress :=
      if h : command_index < dp0.commands.length then
        let cmd : CommandEntry := dp0.commands.get ⟨command_index, h⟩
        let cmd : CommandEntry := { cmd with status := status }
        let cmd : CommandEntry :=
          if status = lit "success" then { cmd with percent := 100 }
          else if status = lit "running" then { cmd with percent := 0 }
          else if status = lit "failed" then { cmd with percent := 0 }
          else cmd
        let cmd : CommandEntry :=
          match execution_time with
          | some t => { cmd with execution_time := some t }
          | none => cmd
        let cmd : CommandEntry :=
          match error with
          | some e => if e ≠ [] then { cmd with error := some e } else cmd
          | none => cmd
        { dp0 with commands := listSet dp0.commands command_index cmd }
      else dp0
    let completing := status = lit "success" ∨ status = lit "failed"
    let dp2 : DeviceProgress :=
      if completing then { dp1 with completed_commands := dp1.completed_commands + 1 }
      else dp1
    let s1 : JobState :=
      if completing ∧ (alookup s.country_stats dp1.country).isSome then
        { s with
          country_stats := amodify s.country_stats dp1.country
            (fun st => { st with completed_commands := st.completed_commands + 1 }) }
      else s
    let dp3 : DeviceProgress := if status = lit "running" then { dp2 with status := lit "running" } else dp2
    let dp4 : DeviceProgress :=
      if dp3.total_commands > 0 then
        { dp3 with percent := some (pyPercentInt dp3.completed_commands dp3.total_commands) }
      else dp3
    let s2 : JobState := { s1 with device_progress := amodify s1.device_progress device_id (fun _ => dp4) }
    let s3 := update_country_stats s2 now
    (s3, [lit "command_update"])

/-- The `device_id` carried by a `current_device` dict. -/
def currentDeviceId : Option CurrentDevice → Option PyStr
  | some (CurrentDevice.statusView d _ _ _) => some d
  | some (CurrentDevice.execView d _ _ _ _ _) => some d
  | none => none

/-- Embedding of `JobManager.update_device_status` (lines 363-392); note it
does not recompute country statistics. -/
def update_device_status (s : JobState) (device_id : PyStr) (status : PyStr)
    (error : Option PyStr) : JobState × List PyStr :=
  match alookup s.device_progress device_id with
  | none => (s, [])
  | some dp0 =>
    let dp1 : DeviceProgress := { dp0 with status := status }
    let dp2 : DeviceProgress :=
      match error with
      | some e => if e ≠ [] then { dp1 with errors := dp1.errors ++ [e] } else dp1
      | none => dp1
    let s : JobState := { s with device_progress := amodify s.device_progress device_id (fun _ => dp2) }
    let s : JobState :=
      if status = lit "connecting" ∨ status = lit "connected" ∨ status = lit "executing" then
        { s with current_device := some (CurrentDevice.statusView device_id dp2.device_name
            dp2.country status) }
      else if status = lit "completed" ∨ status = lit "failed" ∨
          status = lit "disconnected" then
        (if currentDeviceId s.current_device = some device_id then
          { s with current_device := none }
        else s)
      else s
    (s, [lit "device_status_update"])

/-- Embedding of `JobManager.stop_job`. -/
def stop_job (s : JobState) : JobState × List PyStr :=
  if s.status = lit "running" then
    ({ s with stop_requested := true, status := lit "stopping" }, [lit "job_stopping"])
  else (s, [])

/-! ## The job executor (`command_executor.py` lines 966-1234)

`execute_job_async` and `_process_batch` are modelled as a deterministic
interpreter over an oracle that resolves the outside world: connection
attempts, health checks, command outcomes, and the moments at which an
external `stop_job` request lands (observable only at the code's
`is_stop_requested` checks).  Devices within a batch are processed in list
order; the thread pool's interleavings only permute which device's mutation
comes first, and every mutation is atomic under the JobManager lock. -/

/-- The oracle resolving the environment of one job run. -/
structure Oracle where
  alreadyConnected : PyStr → Bool
  connectErr : PyStr → Option PyStr
  healthy : PyStr → Bool
  healthReason : PyStr → PyStr
  cmdResult : PyStr → PyStr → CmdResult
  cmdTime : PyStr → PyStr → FQ
  disconnectOk : PyStr → Bool
  stopAt : Nat → Bool
  now : FQ

/-- One observable moment: the job state after a JobManager call and the
event it broadcast, if any. -/
structure SimEntry where
  state : JobState
  event : Option PyStr
deriving DecidableEq

/-- A running simulation: current job state, the count of
`is_stop_requested` checks so far, and the log of observable moments. -/
structure Sim where
  job : JobState
  checks : Nat
  log : List SimEntry
deriving DecidableEq

/-- Record the result of one JobManager call. -/
def Sim.push (sim : Sim) (r : JobState × List PyStr) : Sim :=
  { sim with job := r.1, log := sim.log ++ [⟨r.1, r.2.head?⟩] }

/-- If the oracle says an external `stop_job` lands before this check,
apply it. -/
def applyStop (o : Oracle) (sim : Sim) : Sim :=
  if o.stopAt sim.checks then sim.push (stop_job sim.job) else sim

/-- One `is_stop_requested` observation point. -/
def doStopCheck (o : Oracle) (sim : Sim) : Sim × Bool :=
  let sim := applyStop o sim
  let sim : Sim := { sim with checks := sim.checks + 1 }
  (sim, sim.job.stop_requested)

/-- Whether the device is connected after the lazy-connect step (connection
attempts in the model are resolved solely by the oracle). -/
def connectedAfterConnect (o : Oracle) (d : PyStr) : Bool :=
  o.alreadyConnected d || (o.connectErr d).isNone

/-- Result of the per-device command loop. -/
structure CmdLoopResult where
  sim : Sim
  cmdResults : List CmdResult
  success_count : Nat
  error_count : Nat

/-- The `for i, cmd in enumerate(commands)` loop of `process_device`
(lines 1142-1173): stop check, current-execution update, running mark,
execute, success or failed mark; `break` on stop. -/
def commandLoop (o : Oracle) (d : DeviceInput) (total : Nat) :
    List (Nat × PyStr) → Sim → List CmdResult → Nat → Nat → CmdLoopResult
  | [], sim, acc, sc, ec => ⟨sim, acc, sc, ec⟩
  | (i, cmd) :: rest, sim, acc, sc, ec =>
    let ck := doStopCheck o sim
    if ck.2 then ⟨ck.1, acc, sc, ec⟩
    else
      let sim := ck.1
      let country := d.country.getD (lit "Unknown")
      let sim := sim.push (update_current_execution sim.job
        (CurrentDevice.execView d.device_id d.device_name country cmd (i + 1) total))
      let sim := sim.push (update_device_command_status sim.job d.device_id i
        (lit "running") none none o.now)
      let res := o.cmdResult d.device_id cmd
      let t := o.cmdTime d.device_id cmd
      if res.status = lit "success" then
        let sim := sim.push (update_device_command_status sim.job d.device_id i
          (lit "success") (some t) none o.now)
        commandLoop o d total rest sim (acc ++ [res]) (sc + 1) ec
      else
        let sim := sim.push (update_device_command_status sim.job d.device_id i
          (lit "failed") (some t) res.error o.now)
        commandLoop o d total rest sim (acc ++ [res]) sc (ec + 1)

/-- The connected part of `process_device`: health gate, command loop,
aggregate result, `update_job_progress`. -/
def process_device_connected (o : Oracle) (commands : List PyStr) (d : DeviceInput)
    (sim : Sim) : Sim :=
  if o.healthy d.device_id = false then
    sim.push (update_job_progress sim.job d.device_id
      ⟨some (lit "failed"), some (o.healthReason d.device_id), none, []⟩ o.now)
  else
    let r := commandLoop o d commands.length commands.enum sim [] 0 0
    let status :=
      if r.error_count = 0 then lit "success"
      else if r.success_count > 0 then lit "partial_success"
      else lit "failed"
    let summary := natDigits r.success_count ++ lit "/" ++ natDigits commands.length ++
      lit " commands success"
    r.sim.push (update_job_progress r.sim.job d.device_id
      ⟨some status, none, some summary, r.cmdResults⟩ o.now)

/-- Embedding of `_process_batch`'s `process_device` (lines 1088-1188):
stop check, command-list registration, lazy connect, health gate, command
loop, job-progress update. -/
def process_device (o : Oracle) (commands : List PyStr) (d : DeviceInput) (sim : Sim) :
    Sim :=
  let ck := doStopCheck o sim
  if ck.2 then ck.1
  else
    let sim := ck.1
    let sim := sim.push (init_device_commands sim.job d.device_id commands)
    if o.alreadyConnected d.device_id then process_device_connected o commands d sim
    else
      let sim := sim.push (update_device_status sim.job d.device_id (lit "connecting") none)
      match o.connectErr d.device_id with
      | some e =>
        let sim := sim.push (update_job_progress sim.job d.device_id
          ⟨some (lit "failed"), some (lit "Connection failed: " ++ e), none, []⟩ o.now)
        sim.push (update_device_status sim.job d.device_id (lit "connection_failed") (some e))
      | none =>
        let sim := sim.push (update_device_status sim.job d.device_id (lit "connected") none)
        process_device_connected o commands d sim

/-- The post-batch auto-disconnect loop of `_process_batch`
(lines 1198-1213): status updates disconnecting/disconnected around the
connection-manager disconnect (which may raise, skipping the second
update). -/
def disconnectPhase (o : Oracle) (batch : List DeviceInput) (sim : Sim) : Sim :=
  batch.foldl
    (fun sim d =>
      if connectedAfterConnect o d.device_id then
        let sim := sim.push (update_device_status sim.job d.device_id
          (lit "disconnecting") none)
        if o.disconnectOk d.device_id then
          sim.push (update_device_status sim.job d.device_id (lit "disconnected") none)
        else sim
      else sim)
    sim

/-- Embedding of `_process_batch`: process every device, then disconnect
every device of the batch. -/
def process_batch (o : Oracle) (commands : List PyStr) (batch : List DeviceInput)
    (sim : Sim) : Sim :=
  disconnectPhase o batch (batch.foldl (fun sim d => process_device o commands d sim) sim)

/-- The 1-second-chunk sleep loop between batches; returns true when a stop
request interrupted it. -/
def sleepLoop (o : Oracle) : Nat → Sim → Sim × Bool
  | 0, sim => (sim, false)
  | n + 1, sim =>
    let ck := doStopCheck o sim
    if ck.2 then (ck.1, true) else sleepLoop o n ck.1

/-- The per-batch loop of `execute_job_async` (lines 1018-1040): stop check
(recording a SYSTEM result and returning when stopped), batch processing,
then the interruptible inter-batch sleep. -/
def runBatches (o : Oracle) (commands : List PyStr) (delay : FQ) :
    List (List DeviceInput) → Sim → Sim
  | [], sim => sim
  | batch :: rest, sim =>
    let ck := doStopCheck o sim
    if ck.2 then
      ck.1.push (update_job_progress ck.1.job (lit "SYSTEM")
        ⟨some (lit "stopped"), none, none, []⟩ o.now)
    else
      let sim := process_batch o commands batch ck.1
      if rest ≠ [] ∧ FQ.blt ⟨0, 1⟩ delay then
        let sl := sleepLoop o (natCeilFQ delay) sim
        if sl.2 then sl.1 else runBatches o commands delay rest sl.1
      else runBatches o commands delay rest sim

/-- Embedding of `execute_job_async`: compute the rate-limiting delay in
float arithmetic, split the device list (a zero batch size raises and kills
the job thread, leaving the state untouched from then on), then run the
batches. -/
def execute_job_async (o : Oracle) (sim : Sim) (devices : List DeviceInput)
    (commands : List PyStr) (batch_size devices_per_hour : Nat) : Sim :=
  let delay :=
    if devices_per_hour > 0 ∧ batch_size > 0 then
      fmul (fdiv (pyFloatN batch_size) (pyFloatN devices_per_hour)) (pyFloatN 3600)
    else ⟨0, 1⟩
  match pySliceBatches devices batch_size with
  | Except.error _ => sim
  | Except.ok batches => runBatches o commands delay batches sim

/-- Embedding of `start_automation_job`: create the job, record the
execution id, then run the executor body. -/
def executeJobRun (o : Oracle) (job_id : PyStr) (devices : List DeviceInput)
    (commands : List PyStr) (batch_size devices_per_hour : Nat) (execution_id : PyStr) :
    Sim :=
  let cr := create_job job_id devices o.now
  let sim0 : Sim := ⟨cr.1, 0, [⟨cr.1, cr.2.head?⟩]⟩
  let sim1 := sim0.push (set_execution_id sim0.job execution_id)
  execute_job_async o sim1 devices commands batch_size devices_per_hour

/-- The job states at every observable moment of a run. -/
def observedStates (sim : Sim) : List JobState := sim.log.map (·.state)

/-- An oracle under which every device is already connected and healthy and
no stop request ever lands. -/
def quietOracle : Oracle :=
  { alreadyConnected := fun _ => true
    connectErr := fun _ => none
    healthy := fun _ => true
    healthReason := fun _ => lit "OK"
    cmdResult := fun i c => cmdErrorResult i i c (lit "unused") (lit "execution_error")
    cmdTime := fun _ _ => ⟨0, 1⟩
    disconnectOk := fun _ => true
    stopAt := fun _ => false
    now := ⟨0, 1⟩ }

/-- A one-device run with no commands: the job completes and the
post-batch disconnect then still mutates it. -/
def c2Run : Sim :=
  executeJobRun quietOracle (lit "job2")
    [⟨lit "d1", lit "usa-r1", some (lit "USA")⟩] [] 10 0 (lit "exec2")

/-- Counterexample to C2: in the one-device run, observable moment 3 is the
`update_job_progress` that completes the job (event `job_completed`), yet
moment 4 — the disconnect path's `update_device_status` — still mutates the
job's `device_progress` and broadcasts a further `device_status_update`
event for it. -/
theorem job_completed_mutation_cex :
    ((c2Run.log.get? 3).map (fun e => e.state.status) = some (lit "completed")) ∧
      ((c2Run.log.get? 3).map (fun e => e.event) = some (some (lit "job_completed"))) ∧
      ((c2Run.log.get? 4).map (fun e => e.event) =
        some (some (lit "device_status_update"))) ∧
      ((c2Run.log.get? 3).map (fun e => e.state.device_progress) ≠
        (c2Run.log.get? 4).map (fun e => e.state.device_progress)) := by
  decide

/-- C2 (amended): once a job's status is completed, the further mutations
the executor performs — the post-batch disconnect path's device status
updates to disconnecting/disconnected — leave the job's status, counters,
progress, end time, results and country statistics unchanged (only
device_progress and current_device may change), and each broadcasts at most
a device_status_update event. -/
theorem job_completed_mutation (s : JobState) (h : s.status = lit "completed")
    (device_id st : PyStr) (e : Option PyStr)
    (hst : st = lit "disconnecting" ∨ st = lit "disconnected") :
    (update_device_status s device_id st e).1.status = lit "completed" ∧
      (update_device_status s device_id st e).1.completed_devices = s.completed_devices ∧
      (update_device_status s device_id st e).1.total_devices = s.total_devices ∧
      (update_device_status s device_id st e).1.progress_percent = s.progress_percent ∧
      (update_device_status s device_id st e).1.end_time = s.end_time ∧
      (update_device_status s device_id st e).1.results = s.results ∧
      (update_device_status s device_id st e).1.country_stats = s.country_stats ∧
      (update_device_status s device_id st e).1.stop_requested = s.stop_requested ∧
      ((update_device_status s device_id st e).2 = [lit "device_status_update"] ∨
        (update_device_status s device_id st e).2 = []) := by
  unfold update_device_status
  cases halo : alookup s.device_progress device_id with
  | none => exact ⟨h, rfl, rfl, rfl, rfl, rfl, rfl, rfl, Or.inr rfl⟩
  | some dp0 =>
    dsimp only
    split_ifs <;> exact ⟨h, rfl, rfl, rfl, rfl, rfl, rfl, rfl, Or.inl rfl⟩

/-- A concrete completed job for the C2 witness. -/
def c2CompletedJob : JobState :=
  { id := lit "jw", status := lit "completed", start_time := ⟨0, 1⟩,
    end_time := some ⟨1, 1⟩, total_devices := 1, completed_devices := 1,
    progress_percent := 100, results := [], errors := [], stop_requested := false,
    device_progress := [(lit "d", ⟨lit "usa-r1", lit "USA", lit "success", 0, 0, [], [],
      none⟩)],
    country_stats := [], current_device := none, execution_id := none }

/-- Witness for C2 (amended) at a concrete completed job. -/
theorem job_completed_mutation_witness :
    (update_device_status c2CompletedJob (lit "d") (lit "disconnecting") none).1.status =
        lit "completed" ∧
      (update_device_status c2CompletedJob (lit "d")
          (lit "disconnecting") none).1.completed_devices = 1 :=
  ⟨(job_completed_mutation c2CompletedJob rfl (lit "d") (lit "disconnecting") none
      (Or.inl rfl)).1,
   (job_completed_mutation c2CompletedJob rfl (lit "d") (lit "disconnecting") none
      (Or.inl rfl)).2.1⟩

/-- An oracle whose stop request lands before the 30th stop check, cutting
a 50-device batch after 29 completions. -/
def c6Oracle : Oracle :=
  { quietOracle with stopAt := fun n => decide (30 ≤ n) }

/-- Fifty devices with distinct single-character ids. -/
def c6Devices : List DeviceInput :=
  (List.range 50).map (fun i => ⟨[Char.ofNat (65 + i)], [Char.ofNat (65 + i)],
    some (lit "USA")⟩)

/-- The 50-device run stopped after 29 completions. -/
def c6Run : Sim := executeJobRun c6Oracle (lit "job6") c6Devices [] 50 0 (lit "exec6")

set_option maxHeartbeats 64000000 in
set_option maxRecDepth 8000 in
/-- Counterexample to C6: at an observable moment of the 50-device run with
29 devices completed, progress_percent is 57, not ⌊29/50·100⌋ = 58 — CPython
computes `int((29/50)*100)` in binary64, where `0.58 * 100` is just below
58. -/
theorem progress_percent_floor_cex :
    ∃ s ∈ observedStates c6Run,
      ¬ s.progress_percent = ((s.completed_devices : Int) * 100 / (s.total_devices : Int)) := by
  decide

/-! ## The C6 invariant: counters and progress at every observable moment

Every JobManager mutation either leaves `completed_devices`,
`total_devices` and `progress_percent` untouched, or — in
`update_job_progress` — increments the counter and recomputes the percent
from it in float arithmetic.  The executor calls `update_job_progress` at
most once per device plus once on the SYSTEM stop path, which only runs
while a non-empty batch remains, so the counter never passes the total. -/

/-- The per-state invariant: the completed counter is bounded by the total
and the stored percent is exactly the float-computed `int((c/t)*100)`. -/
def Pinv (s : JobState) : Prop :=
  s.completed_devices ≤ s.total_devices ∧
    s.progress_percent = pyPercentInt s.completed_devices s.total_devices

/-- The run invariant: the current job and every logged moment satisfy
`Pinv`. -/
def SimInv (sim : Sim) : Prop :=
  Pinv sim.job ∧ ∀ e ∈ sim.log, Pinv e.state

theorem roundFQ_num_zero (x : FQ) (h : x.num = 0) : roundFQ x = ⟨0, 1⟩ := by
  unfold roundFQ
  rw [if_pos h]

theorem pyPercent_zero (t : Nat) : pyPercentInt 0 t = 0 := by
  have h0 : pyFloatN 0 = ⟨0, 1⟩ := rfl
  unfold pyPercentInt
  rw [h0]
  have hz : ∀ y : FQ, fmul ⟨0, 1⟩ y = ⟨0, 1⟩ := by
    intro y
    unfold fmul
    apply roundFQ_num_zero
    exact zero_mul _
  by_cases ht : (pyFloatN t).num = 0
  · rw [fdiv, if_pos ht, hz]
    rfl
  · rw [fdiv, if_neg ht]
    have hd : (FQ.divQ ⟨0, 1⟩ (pyFloatN t)).num = 0 := by
      unfold FQ.divQ FQ.mkSign
      split_ifs <;> simp
    rw [roundFQ_num_zero _ hd, hz]
    rfl

/-- Equality of the three invariant-relevant fields. -/
def countersEq (a b : JobState) : Prop :=
  a.completed_devices = b.completed_devices ∧ a.total_devices = b.total_devices ∧
    a.progress_percent = b.progress_percent

theorem countersEq_refl (a : JobState) : countersEq a a := ⟨rfl, rfl, rfl⟩

theorem pinv_congr {a b : JobState} (h : countersEq a b) (hb : Pinv b) : Pinv a := by
  obtain ⟨h1, h2, h3⟩ := h
  unfold Pinv at hb ⊢
  rw [h1, h2, h3]
  exact hb

theorem counters_stop_job (s : JobState) : countersEq (stop_job s).1 s := by
  unfold stop_job
  split_ifs <;> exact ⟨rfl, rfl, rfl⟩

theorem counters_update_current_execution (s : JobState) (cur : CurrentDevice) :
    countersEq (update_current_execution s cur).1 s := ⟨rfl, rfl, rfl⟩

theorem counters_set_execution_id (s : JobState) (eid : PyStr) :
    countersEq (set_execution_id s eid).1 s := ⟨rfl, rfl, rfl⟩

theorem counters_init_device_commands (s : JobState) (d : PyStr) (cs : List PyStr) :
    countersEq (init_device_commands s d cs).1 s := by
  unfold init_device_commands
  cases alookup s.device_progress d with
  | none => exact ⟨rfl, rfl, rfl⟩
  | some dp =>
    dsimp only
    split_ifs <;> exact ⟨rfl, rfl, rfl⟩

theorem counters_update_device_status (s : JobState) (d st : PyStr) (e : Option PyStr) :
    countersEq (update_device_status s d st e).1 s := by
  unfold update_device_status
  cases alookup s.device_progress d with
  | none => exact ⟨rfl, rfl, rfl⟩
  | some dp0 =>
    dsimp only
    split_ifs <;> exact ⟨rfl, rfl, rfl⟩

theorem counters_update_country_stats (s : JobState) (now : FQ) :
    countersEq (update_country_stats s now) s := ⟨rfl, rfl, rfl⟩

theorem counters_update_device_command_status (s : JobState) (d : PyStr) (i : Nat)
    (st : PyStr) (t : Option FQ) (e : Option PyStr) (now : FQ) :
    countersEq (update_device_command_status s d i st t e now).1 s := by
  unfold update_device_command_status
  cases alookup s.device_progress d with
  | none => exact ⟨rfl, rfl, rfl⟩
  | some dp0 =>
    refine ⟨?_, ?_, ?_⟩
    · show (if _ then { s with country_stats := _ } else s).completed_devices =
        s.completed_devices
      split_ifs <;> rfl
    · show (if _ then { s with country_stats := _ } else s).total_devices =
        s.total_devices
      split_ifs <;> rfl
    · show (if _ then { s with country_stats := _ } else s).progress_percent =
        s.progress_percent
      split_ifs <;> rfl

theorem ujp_counters (s : JobState) (d : PyStr) (r : DeviceResult) (now : FQ) :
    (update_job_progress s d r now).1.completed_devices = s.completed_devices + 1 ∧
      (update_job_progress s d r now).1.total_devices = s.total_devices ∧
      (update_job_progress s d r now).1.progress_percent =
        pyPercentInt (s.completed_devices + 1) s.total_devices := by
  unfold update_job_progress
  dsimp only [update_country_stats]
  split_ifs <;> exact ⟨rfl, rfl, rfl⟩

theorem create_job_counters (j : PyStr) (l : List DeviceInput) (now : FQ) :
    (create_job j l now).1.completed_devices = 0 ∧
      (create_job j l now).1.total_devices = l.length ∧
      (create_job j l now).1.progress_percent = 0 := ⟨rfl, rfl, rfl⟩

theorem pinv_create_job (j : PyStr) (l : List DeviceInput) (now : FQ) :
    Pinv (create_job j l now).1 := by
  obtain ⟨h1, h2, h3⟩ := create_job_counters j l now
  constructor
  · rw [h1]
    exact Nat.zero_le _
  · rw [h1, h3, pyPercent_zero]

theorem push_inv {sim : Sim} {r : JobState × List PyStr} (h : SimInv sim)
    (hr : Pinv r.1) : SimInv (sim.push r) := by
  constructor
  · exact hr
  · intro e he
    have he2 : e ∈ sim.log ++ [⟨r.1, r.2.head?⟩] := he
    rcases List.mem_append.1 he2 with h1 | h1
    · exact h.2 e h1
    · have : e = ⟨r.1, r.2.head?⟩ := List.mem_singleton.1 h1
      rw [this]
      exact hr

theorem push_keep (sim : Sim) (r : JobState × List PyStr) (h : SimInv sim)
    (hk : countersEq r.1 sim.job) :
    SimInv (sim.push r) ∧ countersEq (sim.push r).job sim.job :=
  ⟨push_inv h (pinv_congr hk h.1), hk⟩

theorem push_ujp_inv (sim : Sim) (d : PyStr) (r : DeviceResult) (now : FQ)
    (h : SimInv sim)
    (hb : sim.job.completed_devices + 1 ≤ sim.job.total_devices) :
    SimInv (sim.push (update_job_progress sim.job d r now)) ∧
      (sim.push (update_job_progress sim.job d r now)).job.completed_devices =
        sim.job.completed_devices + 1 ∧
      (sim.push (update_job_progress sim.job d r now)).job.total_devices =
        sim.job.total_devices := by
  obtain ⟨h1, h2, h3⟩ := ujp_counters sim.job d r now
  have hp : Pinv (update_job_progress sim.job d r now).1 := by
    constructor
    · rw [h1, h2]
      exact hb
    · rw [h1, h2, h3]
  exact ⟨push_inv h hp, h1, h2⟩

theorem stopCheck_inv (o : Oracle) (sim : Sim) (h : SimInv sim) :
    SimInv (doStopCheck o sim).1 ∧ countersEq (doStopCheck o sim).1.job sim.job := by
  unfold doStopCheck applyStop
  dsimp only
  split_ifs with hs
  · exact push_keep sim (stop_job sim.job) h (counters_stop_job sim.job)
  · exact ⟨h, countersEq_refl _⟩

theorem commandLoop_inv (o : Oracle) (d : DeviceInput) (total : Nat) :
    ∀ (l : List (Nat × PyStr)) (sim : Sim) (acc : List CmdResult) (sc ec : Nat),
      SimInv sim →
      SimInv (commandLoop o d total l sim acc sc ec).sim ∧
        countersEq (commandLoop o d total l sim acc sc ec).sim.job sim.job := by
  intro l
  induction l with
  | nil =>
    intro sim acc sc ec h
    exact ⟨h, countersEq_refl _⟩
  | cons p rest ih =>
    obtain ⟨i, cmd⟩ := p
    intro sim acc sc ec h
    rw [commandLoop]
    obtain ⟨hck, hckc⟩ := stopCheck_inv o sim h
    dsimp only
    split_ifs with hstop hres
    · exact ⟨hck, hckc⟩
    · obtain ⟨h1, hc1⟩ := push_keep (doStopCheck o sim).1 _ hck
        (counters_update_current_execution _ _)
      obtain ⟨h2, hc2⟩ := push_keep _ _ h1
        (counters_update_device_command_status _ _ _ _ _ _ _)
      obtain ⟨h3, hc3⟩ := push_keep _ _ h2
        (counters_update_device_command_status _ _ _ _ _ _ _)
      obtain ⟨h4, hc4⟩ := ih _ _ _ _ h3
      refine ⟨h4, ?_, ?_, ?_⟩
      · rw [hc4.1, hc3.1, hc2.1, hc1.1, hckc.1]
      · rw [hc4.2.1, hc3.2.1, hc2.2.1, hc1.2.1, hckc.2.1]
      · rw [hc4.2.2, hc3.2.2, hc2.2.2, hc1.2.2, hckc.2.2]
    · obtain ⟨h1, hc1⟩ := push_keep (doStopCheck o sim).1 _ hck
        (counters_update_current_execution _ _)
      obtain ⟨h2, hc2⟩ := push_keep _ _ h1
        (counters_update_device_command_status _ _ _ _ _ _ _)
      obtain ⟨h3, hc3⟩ := push_keep _ _ h2
        (counters_update_device_command_status _ _ _ _ _ _ _)
      obtain ⟨h4, hc4⟩ := ih _ _ _ _ h3
      refine ⟨h4, ?_, ?_, ?_⟩
      · rw [hc4.1, hc3.1, hc2.1, hc1.1, hckc.1]
      · rw [hc4.2.1, hc3.2.1, hc2.2.1, hc1.2.1, hckc.2.1]
      · rw [hc4.2.2, hc3.2.2, hc2.2.2, hc1.2.2, hckc.2.2]

theorem countersEq_trans {a b c : JobState} (h1 : countersEq a b) (h2 : countersEq b c) :
    countersEq a c :=
  ⟨h1.1.trans h2.1, h1.2.1.trans h2.2.1, h1.2.2.trans h2.2.2⟩

theorem pdc_inv (o : Oracle) (cmds : List PyStr) (d : DeviceInput) (sim : Sim)
    (h : SimInv sim)
    (hb : sim.job.completed_devices + 1 ≤ sim.job.total_devices) :
    SimInv (process_device_connected o cmds d sim) ∧
      (process_device_connected o cmds d sim).job.completed_devices =
        sim.job.completed_devices + 1 ∧
      (process_device_connected o cmds d sim).job.total_devices =
        sim.job.total_devices := by
  unfold process_device_connected
  dsimp only
  split_ifs with hh
  · exact push_ujp_inv sim _ _ o.now h hb
  all_goals
    obtain ⟨h1, hc1a, hc1b, hc1c⟩ := commandLoop_inv o d cmds.length cmds.enum sim [] 0 0 h
  all_goals
    obtain ⟨h2, hc2, ht2⟩ := push_ujp_inv _ _ _ o.now h1 (by omega)
  all_goals
    exact ⟨h2, by omega, by omega⟩

theorem process_device_inv (o : Oracle) (cmds : List PyStr) (d : DeviceInput) (sim : Sim)
    (h : SimInv sim)
    (hb : sim.job.completed_devices + 1 ≤ sim.job.total_devices) :
    SimInv (process_device o cmds d sim) ∧
      (process_device o cmds d sim).job.completed_devices ≤
        sim.job.completed_devices + 1 ∧
      (process_device o cmds d sim).job.total_devices = sim.job.total_devices := by
  unfold process_device
  obtain ⟨hck, hcka, hckb, hckc⟩ := stopCheck_inv o sim h
  dsimp only
  split_ifs with hstop hconn
  · exact ⟨hck, by omega, by omega⟩
  · obtain ⟨h1, hc1a, hc1b, hc1c⟩ := push_keep (doStopCheck o sim).1 _ hck
      (counters_init_device_commands _ _ _)
    obtain ⟨h2, hc2, ht2⟩ := pdc_inv o cmds d _ h1 (by omega)
    exact ⟨h2, by omega, by omega⟩
  · obtain ⟨h1, hc1a, hc1b, hc1c⟩ := push_keep (doStopCheck o sim).1 _ hck
      (counters_init_device_commands _ _ _)
    obtain ⟨h2, hc2a, hc2b, hc2c⟩ := push_keep _ _ h1
      (counters_update_device_status _ _ _ _)
    cases hce : o.connectErr d.device_id with
    | some e =>
      dsimp only
      obtain ⟨h3, hc3, ht3⟩ := push_ujp_inv _ _ _ o.now h2 (by omega)
      obtain ⟨h4, hc4a, hc4b, hc4c⟩ := push_keep _ _ h3
        (counters_update_device_status _ _ _ _)
      exact ⟨h4, by omega, by omega⟩
    | none =>
      dsimp only
      obtain ⟨h3, hc3a, hc3b, hc3c⟩ := push_keep _ _ h2
        (counters_update_device_status _ _ _ _)
      obtain ⟨h4, hc4, ht4⟩ := pdc_inv o cmds d _ h3 (by omega)
      exact ⟨h4, by omega, by omega⟩

theorem foldl_inv {α : Type} (f : Sim → α → Sim)
    (hf : ∀ sim a, SimInv sim → SimInv (f sim a) ∧ countersEq (f sim a).job sim.job) :
    ∀ (l : List α) (sim : Sim), SimInv sim →
      SimInv (l.foldl f sim) ∧ countersEq (l.foldl f sim).job sim.job := by
  intro l
  induction l with
  | nil =>
    intro sim h
    exact ⟨h, countersEq_refl _⟩
  | cons a l ih =>
    intro sim h
    rw [List.foldl_cons]
    obtain ⟨h1, hc1⟩ := hf sim a h
    obtain ⟨h2, hc2⟩ := ih (f sim a) h1
    exact ⟨h2, countersEq_trans hc2 hc1⟩

theorem disconnectPhase_inv (o : Oracle) (batch : List DeviceInput) (sim : Sim)
    (h : SimInv sim) :
    SimInv (disconnectPhase o batch sim) ∧
      countersEq (disconnectPhase o batch sim).job sim.job := by
  unfold disconnectPhase
  refine foldl_inv _ ?_ batch sim h
  intro s0 dv h0
  dsimp only
  split_ifs with h1 h2
  · obtain ⟨ha, hca⟩ := push_keep s0 _ h0 (counters_update_device_status _ _ _ _)
    obtain ⟨hb2, hcb⟩ := push_keep _ _ ha (counters_update_device_status _ _ _ _)
    exact ⟨hb2, countersEq_trans hcb hca⟩
  · exact push_keep s0 _ h0 (counters_update_device_status _ _ _ _)
  · exact ⟨h0, countersEq_refl _⟩

theorem sleepLoop_inv (o : Oracle) :
    ∀ (n : Nat) (sim : Sim), SimInv sim →
      SimInv (sleepLoop o n sim).1 ∧ countersEq (sleepLoop o n sim).1.job sim.job := by
  intro n
  induction n with
  | zero =>
    intro sim h
    exact ⟨h, countersEq_refl _⟩
  | succ n ih =>
    intro sim h
    obtain ⟨h1, hc1⟩ := stopCheck_inv o sim h
    simp only [sleepLoop]
    split_ifs with hs
    · exact ⟨h1, hc1⟩
    · obtain ⟨h2, hc2⟩ := ih _ h1
      exact ⟨h2, countersEq_trans hc2 hc1⟩

theorem pdFold_inv (o : Oracle) (cmds : List PyStr) :
    ∀ (batch : List DeviceInput) (sim : Sim), SimInv sim →
      sim.job.completed_devices + batch.length ≤ sim.job.total_devices →
      SimInv (batch.foldl (fun sim d => process_device o cmds d sim) sim) ∧
        (batch.foldl (fun sim d => process_device o cmds d sim) sim).job.completed_devices
          ≤ sim.job.completed_devices + batch.length ∧
        (batch.foldl (fun sim d => process_device o cmds d sim) sim).job.total_devices =
          sim.job.total_devices := by
  intro batch
  induction batch with
  | nil =>
    intro sim h _
    exact ⟨h, by simp, rfl⟩
  | cons d bs ih =>
    intro sim h hb
    have hlen : (d :: bs).length = bs.length + 1 := rfl
    rw [List.foldl_cons]
    obtain ⟨h1, hc1, ht1⟩ := process_device_inv o cmds d sim h (by omega)
    obtain ⟨h2, hc2, ht2⟩ := ih (process_device o cmds d sim) h1 (by omega)
    exact ⟨h2, by omega, by omega⟩

theorem process_batch_inv (o : Oracle) (cmds : List PyStr) (batch : List DeviceInput)
    (sim : Sim) (h : SimInv sim)
    (hb : sim.job.completed_devices + batch.length ≤ sim.job.total_devices) :
    SimInv (process_batch o cmds batch sim) ∧
      (process_batch o cmds batch sim).job.completed_devices ≤
        sim.job.completed_devices + batch.length ∧
      (process_batch o cmds batch sim).job.total_devices = sim.job.total_devices := by
  unfold process_batch
  obtain ⟨h1, hc1, ht1⟩ := pdFold_inv o cmds batch sim h hb
  obtain ⟨h2, hc2a, hc2b, hc2c⟩ := disconnectPhase_inv o batch _ h1
  exact ⟨h2, by omega, by omega⟩

theorem runBatches_inv (o : Oracle) (cmds : List PyStr) (delay : FQ) :
    ∀ (bs : List (List DeviceInput)) (sim : Sim), SimInv sim →
      (∀ b ∈ bs, b ≠ []) →
      sim.job.completed_devices + (bs.map List.length).sum ≤ sim.job.total_devices →
      SimInv (runBatches o cmds delay bs sim) := by
  intro bs
  induction bs with
  | nil =>
    intro sim h _ _
    exact h
  | cons b rest ih =>
    intro sim h hne hbud
    have hlen : ((b :: rest).map List.length).sum =
        b.length + (rest.map List.length).sum := by
      simp
    have hb1 : 1 ≤ b.length := by
      have hbne := hne b (by simp)
      cases b with
      | nil => exact absurd rfl hbne
      | cons x xs => simp
    obtain ⟨h1, hc1a, hc1b, hc1c⟩ := stopCheck_inv o sim h
    simp only [runBatches]
    split_ifs with hstop hsleep hslstop
    · exact (push_ujp_inv _ _ _ o.now h1 (by omega)).1
    · obtain ⟨h2, hc2, ht2⟩ := process_batch_inv o cmds b _ h1 (by omega)
      exact (sleepLoop_inv o (natCeilFQ delay) _ h2).1
    · obtain ⟨h2, hc2, ht2⟩ := process_batch_inv o cmds b _ h1 (by omega)
      obtain ⟨h3, hc3a, hc3b, hc3c⟩ := sleepLoop_inv o (natCeilFQ delay) _ h2
      exact ih _ h3 (fun b' hb' => hne b' (List.mem_cons_of_mem _ hb')) (by omega)
    · obtain ⟨h2, hc2, ht2⟩ := process_batch_inv o cmds b _ h1 (by omega)
      exact ih _ h2 (fun b' hb' => hne b' (List.mem_cons_of_mem _ hb')) (by omega)

theorem execute_job_async_inv (o : Oracle) (sim : Sim) (devices : List DeviceInput)
    (cmds : List PyStr) (bsz dph : Nat) (h : SimInv sim)
    (hbud : sim.job.completed_devices + devices.length ≤ sim.job.total_devices) :
    SimInv (execute_job_async o sim devices cmds bsz dph) := by
  unfold execute_job_async
  dsimp only
  rcases Nat.eq_zero_or_pos bsz with hz | hpos
  · subst hz
    have herr : pySliceBatches devices 0 =
        Except.error (lit "ValueError: range() arg 3 must not be zero") := by
      unfold pySliceBatches pyRange0
      rw [if_pos rfl]
      rfl
    rw [herr]
    exact h
  · rw [slice_eq_chunks devices bsz hpos]
    have hsum : ((pyChunks devices bsz).map List.length).sum = devices.length := by
      have hj := chunks_join (α := DeviceInput) bsz hpos devices.length devices le_rfl
      have hl := congrArg List.length hj
      rw [List.length_flatten] at hl
      exact hl
    exact runBatches_inv o cmds _ (pyChunks devices bsz) sim h
      (fun b hb => chunks_nonempty bsz hpos devices.length devices b hb)
      (by omega)

/-- C6 (amended): at every observable moment of a job run — after every
JobManager mutation the executor performs, including the SYSTEM stop path —
`0 ≤ completed_devices ≤ total_devices` holds and `progress_percent` equals
`int((completed_devices / total_devices) * 100)` as CPython computes it in
binary64 floats, which can be one below the exact floor
(`int((29/50)*100) = 57`). -/
theorem progress_invariant (o : Oracle) (job_id : PyStr) (devices : List DeviceInput)
    (cmds : List PyStr) (bsz dph : Nat) (eid : PyStr) :
    ∀ s ∈ observedStates (executeJobRun o job_id devices cmds bsz dph eid),
      s.completed_devices ≤ s.total_devices ∧
        s.progress_percent = pyPercentInt s.completed_devices s.total_devices := by
  intro s hs
  have h0 : SimInv (⟨(create_job job_id devices o.now).1, 0,
      [⟨(create_job job_id devices o.now).1,
        (create_job job_id devices o.now).2.head?⟩]⟩ : Sim) := by
    constructor
    · exact pinv_create_job job_id devices o.now
    · intro e he
      have he2 : e = ⟨(create_job job_id devices o.now).1,
          (create_job job_id devices o.now).2.head?⟩ := List.mem_singleton.1 he
      rw [he2]
      exact pinv_create_job job_id devices o.now
  have hfin : SimInv (executeJobRun o job_id devices cmds bsz dph eid) := by
    unfold executeJobRun
    dsimp only
    apply execute_job_async_inv
    · exact (push_keep _ _ h0 (counters_set_execution_id _ eid)).1
    · show (0 : Nat) + devices.length ≤ devices.length
      omega
  obtain ⟨e, he, rfl⟩ := List.mem_map.1 hs
  exact hfin.2 e he

/-- A one-device inventory for the C6 witness run. -/
def c6wDevices : List DeviceInput := [⟨lit "dw", lit "dw", none⟩]

/-- The job state logged by `create_job` at the first observable moment of
the witness run. -/
def c6wState : JobState := (create_job (lit "jw6") c6wDevices quietOracle.now).1

/-- Witness for C6 (amended) at the first observable moment of a concrete
one-device quiet run. -/
theorem progress_invariant_witness :
    c6wState.completed_devices ≤ c6wState.total_devices ∧
      c6wState.progress_percent =
        pyPercentInt c6wState.completed_devices c6wState.total_devices :=
  progress_invariant quietOracle (lit "jw6") c6wDevices [] 10 0 (lit "ew6")
    c6wState (by decide)

end Spec2Proof
